import Mathlib

/-!
# StoryForge external-AI gateway — a verification development

Shallow embedding of `backend/app/gemini_client.py`: the retry/transport
engine, the text-generation orchestrator (primary/fallback chain), the
RunPod ("xstory") alternate-backend adapter, the image orchestrator, and
the sampling-config sanitizer.  Outbound HTTP is modelled by oracles
(functions from attempt / poll-iteration indices to responses), random
jitter by an explicit stream of rational factors, and `asyncio.sleep` by a
trace of recorded durations.  Machine floats of the source are modelled by
`ℚ`; Python `dict`s by insertion-ordered association lists; fallible
Python code by `Except`.
-/

namespace StoryForge

/-! ## Python string primitives -/

/-- The whitespace characters Python `str.strip()` removes (ASCII subset;
the Unicode space classes are not exercised by this code base). -/
def isPySpace (c : Char) : Bool :=
  c = ' ' ∨ c = '\t' ∨ c = '\n' ∨ c = '\x0d' ∨ c = '\x0b' ∨ c = '\x0c'

/-- `str.strip()` on the character list: drop leading and trailing
whitespace. -/
def pyStripL (l : List Char) : List Char :=
  ((l.dropWhile isPySpace).reverse.dropWhile isPySpace).reverse

/-- Python `s.strip()`. -/
def pyStrip (s : String) : String :=
  ⟨pyStripL s.data⟩

/-- Python `"".join(l)`. -/
def pyJoin (l : List String) : String :=
  l.foldl (· ++ ·) ""

/-- Python `s.lower()` (ASCII; model identifiers in this code are ASCII). -/
def pyLower (s : String) : String :=
  ⟨s.data.map Char.toLower⟩

/-! ## Python numeric parsing (for `float(...)` / `int(...)` on strings)

`float()` / `int()` accept decimal literals with optional sign and
surrounding whitespace.  Exotic accepted forms (exponents, `inf`, `nan`,
underscores) are not modelled; no claim depends on which exact strings
coerce, only on the dichotomy coercible / not coercible. -/

/-- Numeric value of a digit list (`['4','2'] ↦ 42`). -/
def digitsVal (l : List Char) : ℕ :=
  l.foldl (fun a c => a * 10 + (c.toNat - 48)) 0

/-- Parse an unsigned decimal literal `digits [. digits]` as a rational. -/
def parseUnsignedDec (l : List Char) : Option ℚ :=
  let ip := l.takeWhile Char.isDigit
  let rest := l.dropWhile Char.isDigit
  match rest with
  | [] => if ip.isEmpty then none else some ((digitsVal ip : ℚ))
  | '.' :: fp =>
    if fp.all Char.isDigit ∧ (¬ ip.isEmpty ∨ ¬ fp.isEmpty) then
      some ((digitsVal ip : ℚ) + (digitsVal fp : ℚ) / (10 ^ fp.length))
    else none
  | _ => none

/-- Python `float(s)` on a string. -/
def pyParseFloat (s : String) : Option ℚ :=
  match pyStripL s.data with
  | '-' :: rest => (parseUnsignedDec rest).map (fun q => -q)
  | '+' :: rest => parseUnsignedDec rest
  | l => parseUnsignedDec l

/-- Parse an unsigned integer literal. -/
def parseUnsignedInt (l : List Char) : Option ℤ :=
  if l.isEmpty ∨ ¬ l.all Char.isDigit then none else some ((digitsVal l : ℤ))

/-- Python `int(s)` on a string. -/
def pyParseInt (s : String) : Option ℤ :=
  match pyStripL s.data with
  | '-' :: rest => (parseUnsignedInt rest).map (fun z => -z)
  | '+' :: rest => parseUnsignedInt rest
  | l => parseUnsignedInt l

/-- Python `int(x)` on a number: truncation toward zero. -/
def ratTrunc (q : ℚ) : ℤ :=
  if 0 ≤ q then ⌊q⌋ else -(⌊-q⌋)

/-! ## Dynamic (JSON-like) values

The deserialized provider reply is an untyped structure; Python navigates
it with `isinstance` checks and `dict.get`.  `JVal.num` covers both Python
`int` and `float` (exact rationals stand in for machine floats). -/

inductive JVal where
  | null
  | bool (b : Bool)
  | num (q : ℚ)
  | str (s : String)
  | arr (xs : List JVal)
  | obj (kvs : List (String × JVal))

/-- Python truthiness of a value. -/
def truthy : JVal → Bool
  | .null => false
  | .bool b => b
  | .num q => q ≠ 0
  | .str s => s ≠ ""
  | .arr xs => ¬ xs.isEmpty
  | .obj kvs => ¬ kvs.isEmpty

/-- Python `str(x)`.  Only the `str` case is ever observed by the claims
(joins of token lists); the renderings of the other cases abstract
Python's `repr`-style output. -/
def pyStr : JVal → String
  | .null => "None"
  | .bool b => if b then "True" else "False"
  | .num q => toString q
  | .str s => s
  | .arr _ => "[...]"
  | .obj _ => "\x7b...\x7d"

/-- First binding of a key in an association list (Python `dict` lookup;
dicts built by this code have unique keys). -/
def dGet? (kvs : List (String × JVal)) (k : String) : Option JVal :=
  match kvs with
  | [] => none
  | (k', v) :: rest => if k' = k then some v else dGet? rest k

/-- Python `d.get(k)` (missing key ↦ `None`) on a dict value; `.null` on a
non-dict (call sites guard with `isinstance` where the source does). -/
def jGetD (d : JVal) (k : String) : JVal :=
  match d with
  | .obj kvs => (dGet? kvs k).getD .null
  | _ => .null

/-- `d[k] = v`: replace in place if present, else append (Python dict
insertion-order semantics). -/
def dSet (kvs : List (String × JVal)) (k : String) (v : JVal) : List (String × JVal) :=
  match kvs with
  | [] => [(k, v)]
  | (k', v') :: rest => if k' = k then (k, v) :: rest else (k', v') :: dSet rest k v

/-- `d.pop(k, None)`: drop the binding of `k`. -/
def dPop (kvs : List (String × JVal)) (k : String) : List (String × JVal) :=
  match kvs with
  | [] => []
  | (k', v') :: rest => if k' = k then rest else (k', v') :: dPop rest k

/-- Python `d1.update(d2)`. -/
def dUpdate (d1 d2 : List (String × JVal)) : List (String × JVal) :=
  d2.foldl (fun acc kv => dSet acc kv.1 kv.2) d1

/-- Membership of a value in a dict (`k in d`). -/
def dHas (kvs : List (String × JVal)) (k : String) : Bool :=
  (dGet? kvs k).isSome

/-! ## Model allowlists and endpoint URLs (`gemini_client.py` lines 12–137) -/

def RETRYABLE_STATUS_CODES : List ℕ := [408, 425, 429, 500, 502, 503, 504]

/-- RunPod sits behind Cloudflare and can additionally return 524. -/
def RUNPOD_RETRYABLE_STATUS_CODES : List ℕ := RETRYABLE_STATUS_CODES ++ [524]

/-- `TEXT_MODEL_ALLOWLIST`: model identifier → human description. -/
def TEXT_MODEL_ALLOWLIST : List (String × String) :=
  [("gemini-3-pro", "Gemini 3 Pro (preview) - reasoning, long context"),
   ("gemini-3-flash", "Gemini 3 Flash (preview) - speed-focused multimodal"),
   ("gemini-2.5-pro", "Gemini 2.5 Pro - high-quality reasoning, long context"),
   ("gemini-2.5-flash", "Gemini 2.5 Flash - balanced price/perf, fast"),
   ("gemini-2.5-flash-lite", "Gemini 2.5 Flash-Lite - cost-optimized"),
   ("gemini-2.0-flash", "Gemini 2.0 Flash - previous-gen fast model"),
   ("gemini-2.0-flash-001", "Gemini 2.0 Flash stable variant"),
   ("gemini-2.0-flash-exp", "Gemini 2.0 Flash experimental"),
   ("xstory", "XStory - uncensored vLLM via RunPod")]

def textModelKeys : List String := TEXT_MODEL_ALLOWLIST.map (·.1)

def IMAGE_MODEL_ALLOWLIST : List (String × String) :=
  [("gemini-2.5-flash-image", "Gemini 2.5 Flash Image - stable image+text"),
   ("gemini-2.5-flash-image-preview", "Gemini 2.5 Flash Image Preview (deprecated)"),
   ("gemini-2.0-flash-preview-image-generation", "Gemini 2.0 Flash Preview Image Generation")]

def imageModelKeys : List String := IMAGE_MODEL_ALLOWLIST.map (·.1)

/-- The exception classes the embedding distinguishes (`httpx` transport
errors, Python builtins, and a fuel-exhaustion artifact standing in for an
unterminated polling loop). -/
inductive PyExc where
  | httpStatus (status : ℕ) (body : Option JVal)
  | valueError (msg : String)
  | requestError (msg : String)
  | timeoutError (msg : String)
  | attributeError
  | exception (msg : String)
  | fuelExhausted

/-- Error message of `_text_url_for_model` for an identifier outside the
allowlist (the source interpolates the identifier and the joined
allowlist). -/
def unsupportedTextModelMsg (model : String) : String :=
  "Unsupported text model " ++ model ++ ". Allowed: " ++
    String.intercalate ", " textModelKeys

/-- `_text_url_for_model`: allowlist check, then the generateContent URL. -/
def textUrlForModel (model : String) : Except PyExc String :=
  if textModelKeys.contains model then
    .ok ("https://generativelanguage.googleapis.com/v1beta/models/" ++ model
      ++ ":generateContent")
  else
    .error (.valueError (unsupportedTextModelMsg model))

/-- The URL `_text_url_for_model` returns for an allowlisted model. -/
def textGenUrl (model : String) : String :=
  "https://generativelanguage.googleapis.com/v1beta/models/" ++ model
    ++ ":generateContent"

def unsupportedImageModelMsg (model : String) : String :=
  "Unsupported image model " ++ model ++ ". Allowed: " ++
    String.intercalate ", " imageModelKeys

/-- Rudimentary substring test (`"gemini" in model.lower()`). -/
def listIsSub (pat : List Char) : List Char → Bool
  | [] => pat.isEmpty
  | c :: rest => pat.isPrefixOf (c :: rest) || listIsSub pat rest

def strContains (s pat : String) : Bool :=
  listIsSub pat.data s.data

/-- `_imagen_url` (after the allowlist check): Gemini-family models use the
generateContent endpoint even for images, others the predict endpoint. -/
def imagenUrl (model : String) : String :=
  if strContains (pyLower model) "gemini" then
    "https://generativelanguage.googleapis.com/v1beta/models/" ++ model
      ++ ":generateContent"
  else
    "https://generativelanguage.googleapis.com/v1beta/models/" ++ model ++ ":predict"

/-- `clean_image_prompt`: unconditional anti-text/watermark suffix. -/
def cleanImagePrompt (basePrompt : String) : String :=
  basePrompt ++ ". NO TEXT, NO WORDS, NO TYPOGRAPHY, NO LABELS, NO WATERMARKS, NO SIGNATURES. High contrast, sharp focus, 8k."

/-! ## `_sanitize_generation_config` (lines 71–116)

Literal translation: collect the four recognized keys in order, then one
coerce-or-drop step per key (`float(...)`/`int(...)` with `except
(TypeError, ValueError): pop`), then one clamp step per key. -/

/-- Python `float(x)` as a partial function on dynamic values. -/
def pyFloat : JVal → Option ℚ
  | .num q => some q
  | .bool b => some (if b then 1 else 0)
  | .str s => pyParseFloat s
  | _ => none

/-- Python `int(x)` as a partial function on dynamic values. -/
def pyInt : JVal → Option ℤ
  | .num q => some (ratTrunc q)
  | .bool b => some (if b then 1 else 0)
  | .str s => pyParseInt s
  | _ => none

/-- `allowed[k] = float(allowed[k])` / pop on coercion failure. -/
def coerceFloatStep (kvs : List (String × JVal)) (k : String) : List (String × JVal) :=
  match dGet? kvs k with
  | none => kvs
  | some v =>
    match pyFloat v with
    | some q => dSet kvs k (.num q)
    | none => dPop kvs k

/-- `allowed[k] = int(allowed[k])` / pop on coercion failure. -/
def coerceIntStep (kvs : List (String × JVal)) (k : String) : List (String × JVal) :=
  match dGet? kvs k with
  | none => kvs
  | some v =>
    match pyInt v with
    | some z => dSet kvs k (.num (z : ℚ))
    | none => dPop kvs k

/-- `allowed[k] = max(lo, min(hi, float(allowed[k])))`.  At this point the
value was put there by the float-coercion step, so the re-coercion cannot
fail; the `getD 0` arm is unreachable. -/
def clampFloatStep (kvs : List (String × JVal)) (k : String) (lo hi : ℚ) : List (String × JVal) :=
  match dGet? kvs k with
  | none => kvs
  | some v => dSet kvs k (.num (max lo (min hi ((pyFloat v).getD 0))))

/-- `allowed[k] = max(lo, min(hi, int(allowed[k])))`; as above the
re-coercion cannot fail. -/
def clampIntStep (kvs : List (String × JVal)) (k : String) (lo hi : ℤ) : List (String × JVal) :=
  match dGet? kvs k with
  | none => kvs
  | some v => dSet kvs k (.num ((max lo (min hi ((pyInt v).getD 0)) : ℤ) : ℚ))

/-- The binding `for key in (...): if key in generation_config:
allowed[key] = generation_config[key]` collects, in this order. -/
def collectRecognized (g : List (String × JVal)) : List (String × JVal) :=
  (match dGet? g "temperature" with | some v => [("temperature", v)] | none => []) ++
  (match dGet? g "topP" with | some v => [("topP", v)] | none => []) ++
  (match dGet? g "topK" with | some v => [("topK", v)] | none => []) ++
  (match dGet? g "maxOutputTokens" with | some v => [("maxOutputTokens", v)] | none => [])

/-- `_sanitize_generation_config` (argument `dict | None`; `if not
generation_config: return {}` takes both `None` and the empty dict). -/
def sanitizeGenerationConfig (gc : Option (List (String × JVal))) : List (String × JVal) :=
  match gc with
  | none => []
  | some g =>
    if g.isEmpty then []
    else
      clampIntStep
        (clampIntStep
          (clampFloatStep
            (clampFloatStep
              (coerceIntStep
                (coerceIntStep
                  (coerceFloatStep
                    (coerceFloatStep (collectRecognized g) "temperature")
                    "topP")
                  "topK")
                "maxOutputTokens")
              "temperature" 0 2)
            "topP" 0 1)
          "topK" 1 128)
        "maxOutputTokens" 1 32768

/-- Per-key closed form of the sanitizer: coerce to the key's numeric type,
then clamp to its documented range; `none` for an unrecognized key or an
uncoercible value. -/
def sanitizeKeyVal (k : String) (v : JVal) : Option JVal :=
  if k = "temperature" then (pyFloat v).map (fun q => .num (max 0 (min 2 q)))
  else if k = "topP" then (pyFloat v).map (fun q => .num (max 0 (min 1 q)))
  else if k = "topK" then (pyInt v).map (fun z => .num ((max 1 (min 128 z) : ℤ) : ℚ))
  else if k = "maxOutputTokens" then
    (pyInt v).map (fun z => .num ((max 1 (min 32768 z) : ℤ) : ℚ))
  else none

def recognizedKeys : List String := ["temperature", "topP", "topK", "maxOutputTokens"]

/-- One optional sanitized entry of the closed form. -/
def sanEntry (g : List (String × JVal)) (k : String) : List (String × JVal) :=
  match (dGet? g k).bind (sanitizeKeyVal k) with
  | some v => [(k, v)]
  | none => []

/-! ## The application settings object (`config.py` plus the RunPod
fields `gemini_client.py` reads from it) -/

structure Settings where
  gemini_api_key : String
  gemini_text_model : String
  gemini_text_fallback_model : String
  gemini_text_timeout_s : ℚ
  imagen_model : String
  imagen_timeout_s : ℚ
  runpod_api_key : String
  runpod_endpoint_id : String
  runpod_timeout_s : ℚ

/-! ## Transport oracle

One outbound HTTP call either yields a response (status code and a body,
`none` standing for a body `res.json()` cannot parse) or raises a
network-level `httpx.RequestError`.  Per-attempt timeouts live inside the
transport behaviour and are not separately observable. -/

inductive HOut where
  | resp (status : ℕ) (body : Option JVal)
  | netErr (msg : String)

/-! ## `_execute_with_retry` (lines 140–246)

The `for attempt in range(max_retries)` loop, as structural recursion on
the number of remaining attempts (`remaining + attempt = max_retries`, so
the source's `attempt < max_retries - 1` is `2 ≤ remaining`).  The result
carries the backoff trace — `(attempt, seconds)` for every
`asyncio.sleep` actually executed — and the number of HTTP posts issued.
The branch inside the `except httpx.HTTPStatusError` handler that would
sleep an unjittered `2**attempt` (source line 216) is translated
faithfully; it is unreachable, because `raise_for_status()` (which in
httpx raises for every non-2xx status, redirects included) can only be
reached with a retryable status on the final attempt, where the retry
guard fails — a retryable status on a non-final attempt is already
consumed (with a jittered sleep) before `raise_for_status()` is
reached. -/

structure ExecResult where
  result : Except PyExc JVal
  sleeps : List (ℕ × ℚ)
  calls : ℕ

def executeAux (transport : ℕ → HOut) (jitter : ℕ → ℚ) :
    ℕ → ℕ → ExecResult
  | 0, _ => ⟨.error (.exception "Max retries exceeded for Gemini API"), [], 0⟩
  | r + 1, attempt =>
    match transport attempt with
    | .resp status body =>
      if status ∈ RETRYABLE_STATUS_CODES ∧ 1 ≤ r then
        let rest := executeAux transport jitter r (attempt + 1)
        ⟨rest.result, (attempt, 2 ^ attempt * jitter attempt) :: rest.sleeps,
          rest.calls + 1⟩
      else if status < 200 ∨ 300 ≤ status then
        if status ∈ RETRYABLE_STATUS_CODES ∧ 1 ≤ r then
          let rest := executeAux transport jitter r (attempt + 1)
          ⟨rest.result, (attempt, (2 ^ attempt : ℚ)) :: rest.sleeps, rest.calls + 1⟩
        else ⟨.error (.httpStatus status body), [], 1⟩
      else
        match body with
        | some j => ⟨.ok j, [], 1⟩
        | none => ⟨.error (.valueError "JSONDecodeError"), [], 1⟩
    | .netErr msg =>
      if 1 ≤ r then
        let rest := executeAux transport jitter r (attempt + 1)
        ⟨rest.result, (attempt, 2 ^ attempt * jitter attempt) :: rest.sleeps,
          rest.calls + 1⟩
      else ⟨.error (.requestError msg), [], 1⟩

/-- `_execute_with_retry(url, payload, headers, timeout_s, log_model_name,
max_retries=3)`; the url/payload/headers are already folded into the
transport oracle. -/
def executeWithRetry (transport : ℕ → HOut) (jitter : ℕ → ℚ)
    (maxRetries : ℕ := 3) : ExecResult :=
  executeAux transport jitter maxRetries 0

/-! ## Text response parsing (`_extract_text_from_parts`,
`_gemini_generate_text_with_model` lines 249–331) -/

/-- `isinstance(x, dict)`. -/
def isObj : JVal → Bool
  | .obj _ => true
  | _ => false

/-- Python `x == "<literal>"` for a dynamic left operand. -/
def jStrEq (v : JVal) (s : String) : Bool :=
  match v with
  | .str t => t = s
  | _ => false

/-- `_extract_text_from_parts`: concatenate the truthy `text` fields of a
list of parts (or of a single dict part), then strip. -/
def extractTextFromParts (parts : JVal) : String :=
  match parts with
  | .arr ps =>
    pyStrip (pyJoin (ps.filterMap (fun p =>
      match p with
      | .obj kvs =>
        if truthy ((dGet? kvs "text").getD .null) then
          some (pyStr ((dGet? kvs "text").getD .null))
        else none
      | _ => none)))
  | .obj kvs =>
    if truthy ((dGet? kvs "text").getD .null) then
      pyStrip (pyStr ((dGet? kvs "text").getD .null))
    else pyStrip (pyJoin [])
  | _ => pyStrip (pyJoin [])

/-- The extraction cascade of lines 320–326: parts text, then the
`content.text` fallback, then the `candidate.text` fallback.
`candidate` is always a dict by construction (`candidates[0] if
isinstance(...) else {}`), so the source's `isinstance(candidate, dict)`
test is `True`. -/
def textCascade (parts content candidate : JVal) : String :=
  let text0 := extractTextFromParts parts
  let text1 :=
    if text0 = "" ∧ isObj content ∧ truthy (jGetD content "text") then
      pyStrip (pyStr (jGetD content "text"))
    else text0
  if text1 = "" ∧ truthy (jGetD candidate "text") then
    pyStrip (pyStr (jGetD candidate "text"))
  else text1

/-- Response processing of `_gemini_generate_text_with_model` (lines
298–331): first candidate, the extraction cascade, and the
empty-response guard. -/
def processTextResponse (data : JVal) : Except PyExc String :=
  let candidates := match data with
    | .obj kvs => (dGet? kvs "candidates").getD .null
    | _ => .null
  match candidates with
  | .arr (c0 :: _) =>
    let candidate := match c0 with | .obj kvs => JVal.obj kvs | _ => JVal.obj []
    let content := jGetD candidate "content"
    let parts := match content with
      | .obj kvs => (dGet? kvs "parts").getD .null
      | _ => .null
    let text2 := textCascade parts content candidate
    if text2 = "" then .error (.valueError "Empty response from Gemini model")
    else .ok text2
  | _ => .error (.valueError "No candidates returned from Gemini")

/-- `_gemini_generate_text_with_model`: build the chat payload (defaults
overlaid with the sanitized caller config, JSON MIME directive in
`json_mode`), require the API key, validate the model against the text
allowlist while building the URL, run the transport engine, then parse.
Returns the result together with the list of endpoint URLs hit, one entry
per HTTP post (the mock-transport invocation record).  The per-attempt
timeout resolution of the source only parameterizes `httpx` behaviour,
which lives inside the transport oracle. -/
def geminiGenerateTextWithModel (st : Settings)
    (transport : String → JVal → ℕ → HOut) (jitter : String → ℕ → ℚ)
    (model system_prompt user_prompt : String) (json_mode : Bool)
    (generation_config : Option (List (String × JVal))) :
    Except PyExc String × List String :=
  let cfg0 : List (String × JVal) :=
    [("temperature", .num 0.85), ("maxOutputTokens", .num 16384),
     ("topK", .num 64), ("topP", .num 0.95)]
  let cfg1 := dUpdate cfg0 (sanitizeGenerationConfig generation_config)
  let cfg :=
    if json_mode then dSet cfg1 "responseMimeType" (.str "application/json")
    else cfg1
  let payload : JVal := .obj
    [("contents", .arr [.obj [("role", .str "user"),
        ("parts", .arr [.obj [("text", .str user_prompt)]])]]),
     ("systemInstruction", .obj [("parts", .arr [.obj [("text", .str system_prompt)]])]),
     ("generationConfig", .obj cfg)]
  if st.gemini_api_key = "" then
    (.error (.valueError "STORYFORGE_GEMINI_API_KEY is not configured"), [])
  else
    match textUrlForModel model with
    | .error e => (.error e, [])
    | .ok url =>
      let er := executeWithRetry (transport url payload) (jitter url) 3
      (match er.result with
       | .error e => .error e
       | .ok data => processTextResponse data,
       List.replicate er.calls url)

/-! ## RunPod alternate-backend adapter (`_runpod_generate_text`, lines
334–568) -/

def runsyncUrl (st : Settings) : String :=
  "https://api.runpod.ai/v2/" ++ st.runpod_endpoint_id ++ "/runsync"

def runUrl (st : Settings) : String :=
  "https://api.runpod.ai/v2/" ++ st.runpod_endpoint_id ++ "/run"

def statusUrl (st : Settings) (jobId : String) : String :=
  "https://api.runpod.ai/v2/" ++ st.runpod_endpoint_id ++ "/status/" ++ jobId

/-- The adapter's outbound calls: the single `/runsync` POST, the (at most
two) `/run` POSTs, and the two possible `/status` polling loops — one
entered from the runsync path (A), one from the run path (B) — each with
its own response stream and a monotonic-elapsed-seconds stream read at
every iteration. -/
structure RunpodOracle where
  runsync : HOut
  run : ℕ → HOut
  statusA : ℕ → HOut
  elapsedA : ℕ → ℚ
  statusB : ℕ → HOut
  elapsedB : ℕ → ℚ

/-- `choices[0].message.content` (OpenAI style). -/
def extractViaMessage (c0kvs : List (String × JVal)) : Option String :=
  match (dGet? c0kvs "message").getD .null with
  | .obj mkvs =>
    match (dGet? mkvs "content").getD .null with
    | .str c => if pyStrip c ≠ "" then some (pyStrip c) else none
    | _ => none
  | _ => none

/-- The `choices[0]` record: `tokens` (nonempty list, joined), then
`text` (string with nonempty strip, or nonempty list joined), then the
OpenAI-style message. -/
def extractViaChoices (c0kvs : List (String × JVal)) : Option String :=
  match (dGet? c0kvs "tokens").getD .null with
  | .arr (t :: ts) => some (pyStrip (pyJoin ((t :: ts).map pyStr)))
  | _ =>
    match (dGet? c0kvs "text").getD .null with
    | .str s => if pyStrip s ≠ "" then some (pyStrip s) else extractViaMessage c0kvs
    | .arr (x :: xs) => some (pyStrip (pyJoin ((x :: xs).map pyStr)))
    | _ => extractViaMessage c0kvs

/-- Alternate key `text` on the first output record. -/
def extractAltText (fkvs : List (String × JVal)) : Option String :=
  match (dGet? fkvs "text").getD .null with
  | .str s => if pyStrip s ≠ "" then some (pyStrip s) else none
  | _ => none

/-- Alternate keys `output` then `text` on the first output record. -/
def extractAltKeys (fkvs : List (String × JVal)) : Option String :=
  match (dGet? fkvs "output").getD .null with
  | .str s => if pyStrip s ≠ "" then some (pyStrip s) else extractAltText fkvs
  | _ => extractAltText fkvs

/-- The first element of a list-shaped `output`: a bare string, or a
structured record tried via `choices[0]` then the alternate keys. -/
def extractFromFirst (first : JVal) : Option String :=
  match first with
  | .str s => if pyStrip s ≠ "" then some (pyStrip s) else none
  | .obj fkvs =>
    let viaChoices :=
      match (dGet? fkvs "choices").getD .null with
      | .arr (ch0 :: _) =>
        extractViaChoices (match ch0 with | .obj k => k | _ => [])
      | _ => none
    match viaChoices with
    | some s => some s
    | none => extractAltKeys fkvs
  | _ => none

/-- Alternate key `output` inside a dict-shaped `output`. -/
def extractOutAlt (okvs : List (String × JVal)) : Option String :=
  match (dGet? okvs "output").getD .null with
  | .str s => if pyStrip s ≠ "" then some (pyStrip s) else none
  | .arr (x :: xs) => some (pyStrip (pyJoin ((x :: xs).map pyStr)))
  | _ => none

/-- Dict-shaped `output`: `output.text` as nonempty list (joined) or
string, then the alternate `output.output` key. -/
def extractOutDict (okvs : List (String × JVal)) : Option String :=
  match (dGet? okvs "text").getD .null with
  | .arr (x :: xs) => some (pyStrip (pyJoin ((x :: xs).map pyStr)))
  | .str s => if pyStrip s ≠ "" then some (pyStrip s) else extractOutAlt okvs
  | _ => extractOutAlt okvs

/-- `_extract_runpod_text` (lines 403–463): defensive extraction over the
possible completed-job payload shapes; `none` stands for Python `None`
(note the joined-list branches can return `some ""`, exactly as the
source returns the falsy `""`). -/
def extractRunpodText (data : JVal) : Option String :=
  match data with
  | .obj kvs =>
    match (dGet? kvs "output").getD .null with
    | .arr (first :: _) => extractFromFirst first
    | .obj okvs => extractOutDict okvs
    | .str s => if pyStrip s ≠ "" then some (pyStrip s) else none
    | _ => none
  | _ => none

/-- `_poll_status` (lines 465–495): bounded only by the caller timeout in
the source (`while True`), here additionally by fuel (`.fuelExhausted` is
the modeling artifact for a run that would still be polling).  Returns
the outcome and the number of status GETs issued.  The sleep durations
(0.5s growing ×1.3 to a 2.0s cap) affect only timing and are not
recorded. -/
def pollStatus (statusResp : ℕ → HOut) (elapsed : ℕ → ℚ) (timeout_s : ℚ) :
    ℕ → ℕ → Except PyExc JVal × ℕ
  | 0, _ => (.error .fuelExhausted, 0)
  | f + 1, i =>
    if timeout_s < elapsed i then (.error (.timeoutError "RunPod job timed out"), 0)
    else
      match statusResp i with
      | .netErr msg => (.error (.requestError msg), 1)
      | .resp status body =>
        if 400 ≤ status then
          if status ∈ RUNPOD_RETRYABLE_STATUS_CODES then
            let rest := pollStatus statusResp elapsed timeout_s f (i + 1)
            (rest.1, rest.2 + 1)
          else (.error (.httpStatus status body), 1)
        else
          match body with
          | none => (.error (.valueError "JSONDecodeError"), 1)
          | some data =>
            if jStrEq (jGetD data "status") "COMPLETED" then (.ok data, 1)
            else if jStrEq (jGetD data "status") "FAILED" then
              (.error (.valueError "RunPod job failed"), 1)
            else
              let rest := pollStatus statusResp elapsed timeout_s f (i + 1)
              (rest.1, rest.2 + 1)

/-- The `/run` submission loop (lines 533–547): one retry, only when the
first response is a retryable status; a network error is not caught
inside the loop.  Returns the parsed submission response and the number
of POSTs. -/
def runSubmit (runResp : ℕ → HOut) : Except PyExc JVal × ℕ :=
  match runResp 0 with
  | .netErr m => (.error (.requestError m), 1)
  | .resp st0 b0 =>
    if 400 ≤ st0 ∧ st0 ∈ RUNPOD_RETRYABLE_STATUS_CODES then
      match runResp 1 with
      | .netErr m => (.error (.requestError m), 2)
      | .resp st1 b1 =>
        if st1 < 200 ∨ 300 ≤ st1 then (.error (.httpStatus st1 b1), 2)
        else
          match b1 with
          | none => (.error (.valueError "JSONDecodeError"), 2)
          | some d => (.ok d, 2)
    else if st0 < 200 ∨ 300 ≤ st0 then (.error (.httpStatus st0 b0), 1)
    else
      match b0 with
      | none => (.error (.valueError "JSONDecodeError"), 1)
      | some d => (.ok d, 1)

/-- `job_id = str((data or {}).get("id") or "")`; a truthy non-dict
submission body raises `AttributeError` at `.get`. -/
def runpodJobId (data : JVal) : Except PyExc String :=
  let d := if truthy data then data else .obj []
  match d with
  | .obj kvs =>
    let idv := (dGet? kvs "id").getD .null
    .ok (if truthy idv then pyStr idv else "")
  | _ => .error .attributeError

/-- The `/run` + `/status` path (lines 530–558): submit, require a job
id, poll, extract; `if not text: raise ValueError("Invalid RunPod /status
output")`.  Poll errors and HTTP/network errors re-raise unchanged. -/
def runpodRunPath (st : Settings) (oracle : RunpodOracle) (timeout_s : ℚ)
    (fuel : ℕ) : Except PyExc String × List String :=
  match runSubmit oracle.run with
  | (.error e, n) => (.error e, List.replicate n (runUrl st))
  | (.ok data, n) =>
    let submitLog := List.replicate n (runUrl st)
    match runpodJobId data with
    | .error e => (.error e, submitLog)
    | .ok jobId =>
      if jobId = "" then
        (.error (.valueError "RunPod /run did not return a job id"), submitLog)
      else
        let p := pollStatus oracle.statusB oracle.elapsedB timeout_s fuel 0
        let log := submitLog ++ List.replicate p.2 (statusUrl st jobId)
        match p.1 with
        | .error e => (.error e, log)
        | .ok polled =>
          match extractRunpodText polled with
          | some s =>
            if s ≠ "" then (.ok s, log)
            else (.error (.valueError "Invalid RunPod /status output"), log)
          | none => (.error (.valueError "Invalid RunPod /status output"), log)

/-- Prefix already-issued calls onto a continuation's log. -/
def prependLog (l : List String) (r : Except PyExc String × List String) :
    Except PyExc String × List String :=
  (r.1, l ++ r.2)

/-- The runsync continuation after a falsy extraction (lines 515–523):
poll on the returned job id if present, re-extract, otherwise
`ValueError("Invalid response format from RunPod")`, which the
surrounding `except (HTTPStatusError, RequestError, TimeoutError)` does
NOT catch — it propagates; those three caught classes fall through to the
run path. -/
def runsyncAfterExtract (st : Settings) (oracle : RunpodOracle) (data : JVal)
    (timeout_s : ℚ) (fuel : ℕ) : Except PyExc String × List String :=
  if truthy (jGetD data "id") then
    let jobId := pyStr (jGetD data "id")
    let p := pollStatus oracle.statusA oracle.elapsedA timeout_s fuel 0
    let plog := [runsyncUrl st] ++ List.replicate p.2 (statusUrl st jobId)
    match p.1 with
    | .ok polled =>
      match extractRunpodText polled with
      | some s =>
        if s ≠ "" then (.ok s, plog)
        else (.error (.valueError "Invalid response format from RunPod"), plog)
      | none => (.error (.valueError "Invalid response format from RunPod"), plog)
    | .error (.timeoutError m) =>
      prependLog plog (runpodRunPath st oracle timeout_s fuel)
    | .error (.httpStatus s b) =>
      prependLog plog (runpodRunPath st oracle timeout_s fuel)
    | .error (.requestError m) =>
      prependLog plog (runpodRunPath st oracle timeout_s fuel)
    | .error e => (.error e, plog)
  else (.error (.valueError "Invalid response format from RunPod"), [runsyncUrl st])

/-- `_runpod_generate_text`: key check, effective timeout (Python
truthiness: a zero timeout falls back to the default), sampling-param
mapping, runsync-unless-json strategy, then the run+poll path. -/
def runpodGenerateText (st : Settings) (oracle : RunpodOracle)
    (system_prompt user_prompt : String) (json_mode : Bool)
    (timeout_s : Option ℚ) (generation_config : Option (List (String × JVal)))
    (fuel : ℕ) : Except PyExc String × List String :=
  if st.runpod_api_key = "" then
    (.error (.valueError "STORYFORGE_RUNPOD_API_KEY is not configured"), [])
  else
    let effTimeout := match timeout_s with
      | some t => if t ≠ 0 then t else st.runpod_timeout_s
      | none => st.runpod_timeout_s
    let sanitized := sanitizeGenerationConfig generation_config
    let cfg0 : List (String × JVal) :=
      [("temperature", .num 0.85), ("top_p", .num 0.95),
       ("top_k", .num 64), ("max_tokens", .num 4096)]
    let cfg1 := match dGet? sanitized "temperature" with
      | some v => dSet cfg0 "temperature" v | none => cfg0
    let cfg2 := match dGet? sanitized "topP" with
      | some v => dSet cfg1 "top_p" v | none => cfg1
    let cfg3 := match dGet? sanitized "topK" with
      | some v => dSet cfg2 "top_k" v | none => cfg2
    let cfg := match dGet? sanitized "maxOutputTokens" with
      | some v => dSet cfg3 "max_tokens" v | none => cfg3
    let effSystem :=
      if json_mode then
        system_prompt ++ "\n\nReturn valid JSON only. Do not include markdown fences."
      else system_prompt
    let payload : JVal := .obj [("input", .obj
      [("messages", .arr
        [.obj [("role", .str "system"), ("content", .str effSystem)],
         .obj [("role", .str "user"), ("content", .str user_prompt)]]),
       ("sampling_params", .obj cfg)])]
    if json_mode then runpodRunPath st oracle effTimeout fuel
    else
      match oracle.runsync with
      | .netErr _ =>
        prependLog [runsyncUrl st] (runpodRunPath st oracle effTimeout fuel)
      | .resp status body =>
        if status < 200 ∨ 300 ≤ status then
          prependLog [runsyncUrl st] (runpodRunPath st oracle effTimeout fuel)
        else
          match body with
          | none => (.error (.valueError "JSONDecodeError"), [runsyncUrl st])
          | some data =>
            match extractRunpodText data with
            | some s =>
              if s ≠ "" then (.ok s, [runsyncUrl st])
              else runsyncAfterExtract st oracle data effTimeout fuel
            | none => runsyncAfterExtract st oracle data effTimeout fuel

/-! ## `gemini_generate_text` orchestrator (lines 571–662) -/

/-- Python `x or default` for an optional string argument. -/
def resolveOr (explicit : Option String) (fallbackVal : String) : String :=
  match explicit with
  | some s => if s ≠ "" then s else fallbackVal
  | none => fallbackVal

/-- The attempt chain (lines 594–597): `[primary]`, the stripped resolved
fallback appended only when truthy, different from the primary, and not
(case-insensitively) the RunPod identifier. -/
def buildModels (primary fallbackResolved : String) : List String :=
  let fb := pyStrip fallbackResolved
  if fb ≠ "" ∧ fb ≠ primary ∧ pyLower fb ≠ "xstory" then [primary, fb]
  else [primary]

/-- The `for i, model in enumerate(models)` loop (lines 599–662).  Every
branch of the source's `except HTTPStatusError / ValueError /
RequestError` handlers records `last_err = e` and completes, after which
the for-loop advances to the next model (the guarded `continue` branches
differ from the final bare `last_err = e` only in logging); exception
classes with no handler propagate immediately.  After the loop,
`raise last_err` if any, else the bare `Exception`. -/
def textAttemptLoop (st : Settings) (transport : String → JVal → ℕ → HOut)
    (jitter : String → ℕ → ℚ) (system_prompt user_prompt : String)
    (json_mode : Bool) (generation_config : Option (List (String × JVal))) :
    List String → Option PyExc → List String →
    Except PyExc String × List String
  | [], lastErr, log =>
    (match lastErr with
     | some e => .error e
     | none => .error (.exception "Gemini text generation failed"), log)
  | model :: rest, lastErr, log =>
    match geminiGenerateTextWithModel st transport jitter model system_prompt
        user_prompt json_mode generation_config with
    | (.ok s, l) => (.ok s, log ++ l)
    | (.error e, l) =>
      match e with
      | .httpStatus s b =>
        textAttemptLoop st transport jitter system_prompt user_prompt
          json_mode generation_config rest (some (.httpStatus s b)) (log ++ l)
      | .valueError m =>
        textAttemptLoop st transport jitter system_prompt user_prompt
          json_mode generation_config rest (some (.valueError m)) (log ++ l)
      | .requestError m =>
        textAttemptLoop st transport jitter system_prompt user_prompt
          json_mode generation_config rest (some (.requestError m)) (log ++ l)
      | e => (.error e, log ++ l)

/-- `gemini_generate_text`: resolve the primary, route (case-insensitive)
`"xstory"` wholesale to the RunPod adapter with no fallback, otherwise
run the attempt chain. -/
def geminiGenerateText (st : Settings) (transport : String → JVal → ℕ → HOut)
    (jitter : String → ℕ → ℚ) (oracle : RunpodOracle)
    (system_prompt user_prompt : String) (json_mode : Bool)
    (timeout_s : Option ℚ) (generation_config : Option (List (String × JVal)))
    (text_model text_fallback_model : Option String) (fuel : ℕ) :
    Except PyExc String × List String :=
  let primary := resolveOr text_model st.gemini_text_model
  if pyLower primary = "xstory" then
    runpodGenerateText st oracle system_prompt user_prompt json_mode
      timeout_s generation_config fuel
  else
    let models := buildModels primary
      (resolveOr text_fallback_model st.gemini_text_fallback_model)
    textAttemptLoop st transport jitter system_prompt user_prompt json_mode
      generation_config models none []

/-! ## `gemini_generate_image` (lines 665–749) -/

/-- The `for part in parts` search for inline image data.  A non-dict
part, or a truthy non-dict `inlineData`, raises `AttributeError` in the
source at `.get` — inside the function's catch-all, so the loop result is
an absent image either way; the abort is modelled as `none`. -/
def imagePartsLoop : List JVal → Option String
  | [] => none
  | p :: rest =>
    match p with
    | .obj kvs =>
      let inline := (dGet? kvs "inlineData").getD .null
      if truthy inline then
        match inline with
        | .obj ikvs =>
          let mime := (dGet? ikvs "mimeType").getD (.str "image/png")
          let b64 := (dGet? ikvs "data").getD .null
          if truthy b64 then
            some ("data:" ++ pyStr mime ++ ";base64," ++ pyStr b64)
          else imagePartsLoop rest
        | _ => none
      else imagePartsLoop rest
    | _ => none

/-- Gemini-family image response parsing (lines 717–736).  Dynamic-type
mismatches raise inside the catch-all in the source and are `none`
here. -/
def parseGeminiImage (data : JVal) : Option String :=
  match data with
  | .obj kvs =>
    let candidates := (dGet? kvs "candidates").getD (.arr [])
    if truthy candidates then
      match candidates with
      | .arr (c0 :: _) =>
        match c0 with
        | .obj c0kvs =>
          match (dGet? c0kvs "content").getD (.obj []) with
          | .obj ckvs =>
            match (dGet? ckvs "parts").getD (.arr []) with
            | .arr ps => imagePartsLoop ps
            | _ => none
          | _ => none
        | _ => none
      | _ => none
    else none
  | _ => none

/-- Legacy Imagen response parsing (lines 738–746):
`(data.get("predictions", [{}])[0] or {}).get("bytesBase64Encoded")`. -/
def parseLegacyImage (data : JVal) : Option String :=
  match data with
  | .obj kvs =>
    match (dGet? kvs "predictions").getD (.arr [.obj []]) with
    | .arr (p0 :: _) =>
      match (if truthy p0 then p0 else .obj []) with
      | .obj pkvs =>
        let b64 := (dGet? pkvs "bytesBase64Encoded").getD .null
        if truthy b64 then some ("data:image/png;base64," ++ pyStr b64)
        else none
      | _ => none
    | _ => none
  | _ => none

/-- `gemini_generate_image`: allowlist check and API-key check OUTSIDE
the try/except (they raise `ValueError` to the caller); everything from
the transport call on is inside `except Exception: return None`, so the
guarded section never raises — any error becomes an absent image. -/
def geminiGenerateImage (st : Settings) (transport : String → JVal → ℕ → HOut)
    (jitter : String → ℕ → ℚ) (prompt : String) (imagen_model : Option String) :
    Except PyExc (Option String) × List String :=
  let selected := pyStrip (resolveOr imagen_model st.imagen_model)
  if ¬ imageModelKeys.contains selected then
    (.error (.valueError (unsupportedImageModelMsg selected)), [])
  else
    let isGemini := strContains (pyLower selected) "gemini"
    let cleaned := cleanImagePrompt prompt
    let payload : JVal :=
      if isGemini then
        .obj [("contents", .arr [.obj [("parts", .arr [.obj [("text", .str cleaned)]])]]),
          ("generationConfig", .obj [])]
      else
        .obj [("instances", .arr [.obj [("prompt", .str cleaned)]]),
          ("parameters", .obj [("sampleCount", .num 1)])]
    if st.gemini_api_key = "" then
      (.error (.valueError "STORYFORGE_GEMINI_API_KEY is not configured"), [])
    else
      let url := imagenUrl selected
      let er := executeWithRetry (transport url payload) (jitter url) 3
      (match er.result with
       | .error _ => .ok none
       | .ok data =>
         .ok (if isGemini then parseGeminiImage data else parseLegacyImage data),
       List.replicate er.calls url)

/-! ## Concrete scenario fixtures (settings, oracles and transports used
to evaluate the definitions at specific inputs) -/

def stFix : Settings :=
  ⟨"k", "gemini-2.5-flash", "gemini-2.5-pro", 180, "gemini-2.5-flash-image",
    45, "rk", "ep", 600⟩

def oracleIdle : RunpodOracle :=
  ⟨.resp 200 none, fun _ => .resp 200 none, fun _ => .resp 200 none,
    fun _ => 0, fun _ => .resp 200 none, fun _ => 0⟩

/-- A provider reply whose first candidate carries the part text
`"hello"`. -/
def goodTextBody : JVal :=
  .obj [("candidates", .arr [.obj [("content",
    .obj [("parts", .arr [.obj [("text", .str "hello")]])])]])]

/-- Transport: every endpoint answers 200 with `goodTextBody`. -/
def transportGood : String → JVal → ℕ → HOut :=
  fun _ _ _ => .resp 200 (some goodTextBody)

/-- Transport: the primary default model's endpoint answers 400, every
other endpoint answers 200 with `goodTextBody`. -/
def transport400then200 : String → JVal → ℕ → HOut :=
  fun url _ _ =>
    if url = textGenUrl "gemini-2.5-flash" then .resp 400 (some (.obj []))
    else .resp 200 (some goodTextBody)

def jitterOne : String → ℕ → ℚ := fun _ _ => 1

/-! ## Theorems -/

theorem ratTrunc_intCast (z : ℤ) : ratTrunc (z : ℚ) = z := by
  unfold ratTrunc
  rcases le_or_lt 0 (z : ℚ) with h | h
  · simp [h, Int.floor_intCast]
  · rw [if_neg (not_le.mpr h), ← Int.cast_neg, Int.floor_intCast, neg_neg]

theorem pyInt_num_intCast (z : ℤ) : pyInt (.num (z : ℚ)) = some z := by
  simp [pyInt, ratTrunc_intCast]

theorem pyFloat_num (q : ℚ) : pyFloat (.num q) = some q := rfl

/- The sequential dict-mutation pipeline of `_sanitize_generation_config`
collapses to independent per-key processing: each recognized key is
coerced then clamped on its own, in the fixed four-key order. -/
set_option maxHeartbeats 4000000 in
theorem sanitize_closed (g : List (String × JVal)) :
    sanitizeGenerationConfig (some g) =
      if g.isEmpty then []
      else
        sanEntry g "temperature" ++ (sanEntry g "topP" ++ (sanEntry g "topK" ++
          sanEntry g "maxOutputTokens")) := by
  by_cases hg : g.isEmpty
  · simp [sanitizeGenerationConfig, hg]
  · simp only [sanitizeGenerationConfig, hg, if_false]
    rcases ht : dGet? g "temperature" with _ | vt <;>
    rcases hp : dGet? g "topP" with _ | vp <;>
    rcases hk : dGet? g "topK" with _ | vk <;>
    rcases hm : dGet? g "maxOutputTokens" with _ | vm <;>
      (try cases hft : pyFloat vt) <;>
      (try cases hfp : pyFloat vp) <;>
      (try cases hik : pyInt vk) <;>
      (try cases him : pyInt vm) <;>
      simp [collectRecognized, sanEntry, sanitizeKeyVal, ht, hp, hk, hm,
        coerceFloatStep, coerceIntStep, clampFloatStep, clampIntStep,
        dGet?, dSet, dPop, pyInt_num_intCast, pyFloat_num, *]

theorem mem_sanEntry {g : List (String × JVal)} {k k' : String} {v : JVal}
    (h : (k', v) ∈ sanEntry g k) :
    k' = k ∧ (dGet? g k).bind (sanitizeKeyVal k) = some v := by
  unfold sanEntry at h
  rcases hb : (dGet? g k).bind (sanitizeKeyVal k) with _ | w <;> rw [hb] at h <;>
    simp at h
  exact ⟨h.1, by rw [h.2]⟩

theorem dGet?_append_none {l1 l2 : List (String × JVal)} {k : String}
    (h : dGet? l1 k = none) : dGet? (l1 ++ l2) k = dGet? l2 k := by
  induction l1 with
  | nil => rfl
  | cons hd tl ih =>
    rcases hd with ⟨k', v⟩
    by_cases hk : k' = k
    · simp [dGet?, hk] at h
    · simp only [List.cons_append, dGet?, hk, if_false] at h ⊢
      exact ih h

theorem dGet?_append_some {l1 l2 : List (String × JVal)} {k : String} {v : JVal}
    (h : dGet? l1 k = some v) : dGet? (l1 ++ l2) k = some v := by
  induction l1 with
  | nil => simp [dGet?] at h
  | cons hd tl ih =>
    rcases hd with ⟨k', v'⟩
    by_cases hk : k' = k
    · simp only [List.cons_append, dGet?, hk, if_true, if_pos] at h ⊢
      exact h
    · simp only [List.cons_append, dGet?, hk, if_false] at h ⊢
      exact ih h

theorem dGet?_sanEntry (g : List (String × JVal)) (k k' : String) :
    dGet? (sanEntry g k') k =
      if k' = k then (dGet? g k').bind (sanitizeKeyVal k') else none := by
  unfold sanEntry
  rcases hb : (dGet? g k').bind (sanitizeKeyVal k') with _ | w <;>
    simp [dGet?, hb] <;> intro h <;> simp [h]

theorem sanitizeKeyVal_range_temperature {v w : JVal}
    (h : sanitizeKeyVal "temperature" v = some w) :
    ∃ q : ℚ, w = .num q ∧ 0 ≤ q ∧ q ≤ 2 := by
  unfold sanitizeKeyVal at h
  rcases hf : pyFloat v with _ | q <;> simp [hf] at h
  exact ⟨max 0 (min 2 q), h.symm, le_max_left _ _,
    max_le (by norm_num) (min_le_left _ _)⟩

theorem sanitizeKeyVal_range_topP {v w : JVal}
    (h : sanitizeKeyVal "topP" v = some w) :
    ∃ q : ℚ, w = .num q ∧ 0 ≤ q ∧ q ≤ 1 := by
  unfold sanitizeKeyVal at h
  rcases hf : pyFloat v with _ | q <;> simp [hf] at h
  exact ⟨max 0 (min 1 q), h.symm, le_max_left _ _,
    max_le (by norm_num) (min_le_left _ _)⟩

theorem sanitizeKeyVal_range_topK {v w : JVal}
    (h : sanitizeKeyVal "topK" v = some w) :
    ∃ z : ℤ, w = .num (z : ℚ) ∧ 1 ≤ z ∧ z ≤ 128 := by
  unfold sanitizeKeyVal at h
  rcases hf : pyInt v with _ | z <;> simp [hf] at h
  refine ⟨max 1 (min 128 z), ?_, le_max_left _ _,
    max_le (by norm_num) (min_le_left _ _)⟩
  push_cast
  exact h.symm

theorem sanitizeKeyVal_range_maxOutputTokens {v w : JVal}
    (h : sanitizeKeyVal "maxOutputTokens" v = some w) :
    ∃ z : ℤ, w = .num (z : ℚ) ∧ 1 ≤ z ∧ z ≤ 32768 := by
  unfold sanitizeKeyVal at h
  rcases hf : pyInt v with _ | z <;> simp [hf] at h
  refine ⟨max 1 (min 32768 z), ?_, le_max_left _ _,
    max_le (by norm_num) (min_le_left _ _)⟩
  push_cast
  exact h.symm

/-- **C6.** Sampling-config sanitization: (1) every field present in the
output lies within its documented clamp range (temperature in `[0,2]`,
topP in `[0,1]`, topK in `[1,128]`, maxOutputTokens in `[1,32768]`);
(2) only the four recognized keys can appear in the output — unknown keys
are dropped; (3) the output at each recognized key is a function of that
key alone (`dGet? g k |>.bind (sanitizeKeyVal k)`), so an uncoercible
value drops exactly that key while the sanitize call itself still returns
a dict (it is a total function). -/
theorem sampling_config_sanitization_clamps_and_filters :
    (∀ (gc : Option (List (String × JVal))) (k : String) (v : JVal),
      (k, v) ∈ sanitizeGenerationConfig gc →
        (k = "temperature" → ∃ q : ℚ, v = .num q ∧ 0 ≤ q ∧ q ≤ 2) ∧
        (k = "topP" → ∃ q : ℚ, v = .num q ∧ 0 ≤ q ∧ q ≤ 1) ∧
        (k = "topK" → ∃ z : ℤ, v = .num (z : ℚ) ∧ 1 ≤ z ∧ z ≤ 128) ∧
        (k = "maxOutputTokens" →
          ∃ z : ℤ, v = .num (z : ℚ) ∧ 1 ≤ z ∧ z ≤ 32768)) ∧
    (∀ (gc : Option (List (String × JVal))) (k : String) (v : JVal),
      (k, v) ∈ sanitizeGenerationConfig gc → k ∈ recognizedKeys) ∧
    (∀ (g : List (String × JVal)) (k : String), k ∈ recognizedKeys →
      dGet? (sanitizeGenerationConfig (some g)) k =
        if g.isEmpty then none else (dGet? g k).bind (sanitizeKeyVal k)) := by
  have hmem : ∀ (gc : Option (List (String × JVal))) (k : String) (v : JVal),
      (k, v) ∈ sanitizeGenerationConfig gc →
      k ∈ recognizedKeys ∧ (∃ g, (dGet? g k).bind (sanitizeKeyVal k) = some v) := by
    intro gc k v h
    match gc with
    | none => simp [sanitizeGenerationConfig] at h
    | some g =>
      rw [sanitize_closed] at h
      by_cases hg : g.isEmpty
      · simp [hg] at h
      · rw [if_neg hg] at h
        rcases List.mem_append.mp h with h1 | h1
        · rcases mem_sanEntry h1 with ⟨hk, hv⟩
          subst hk
          exact ⟨by simp [recognizedKeys], g, hv⟩
        rcases List.mem_append.mp h1 with h2 | h2
        · rcases mem_sanEntry h2 with ⟨hk, hv⟩
          subst hk
          exact ⟨by simp [recognizedKeys], g, hv⟩
        rcases List.mem_append.mp h2 with h3 | h3 <;>
          rcases mem_sanEntry h3 with ⟨hk, hv⟩ <;> subst hk <;>
          exact ⟨by simp [recognizedKeys], g, hv⟩
  refine ⟨?_, fun gc k v h => (hmem gc k v h).1, ?_⟩
  · intro gc k v h
    rcases hmem gc k v h with ⟨-, g, hv⟩
    rcases Option.bind_eq_some.mp hv with ⟨w, -, hsan⟩
    refine ⟨?_, ?_, ?_, ?_⟩ <;> intro hk <;> subst hk
    · exact sanitizeKeyVal_range_temperature hsan
    · exact sanitizeKeyVal_range_topP hsan
    · exact sanitizeKeyVal_range_topK hsan
    · exact sanitizeKeyVal_range_maxOutputTokens hsan
  · intro g k hk
    rw [sanitize_closed]
    by_cases hg : g.isEmpty
    · simp [hg, dGet?]
    · rw [if_neg hg, if_neg hg]
      have push : ∀ (k' : String) (l : List (String × JVal)), k' ≠ k →
          dGet? (sanEntry g k' ++ l) k = dGet? l k := by
        intro k' l hne
        exact dGet?_append_none (by simp [dGet?_sanEntry, hne])
      have entry_ne : ∀ k' : String, k' ≠ k → dGet? (sanEntry g k') k = none := by
        intro k' hne
        simp [dGet?_sanEntry, hne]
      simp only [recognizedKeys, List.mem_cons, List.not_mem_nil, or_false] at hk
      rcases hk with rfl | rfl | rfl | rfl
      · rcases hb : (dGet? g "temperature").bind (sanitizeKeyVal "temperature") with _ | w
        · rw [dGet?_append_none (by simp [dGet?_sanEntry, hb]),
            push _ _ (by decide), push _ _ (by decide),
            entry_ne _ (by decide)]
        · rw [dGet?_append_some (show dGet? (sanEntry g "temperature") "temperature" = some w from by simp [dGet?_sanEntry, hb])]
      · rw [push _ _ (by decide)]
        rcases hb : (dGet? g "topP").bind (sanitizeKeyVal "topP") with _ | w
        · rw [dGet?_append_none (by simp [dGet?_sanEntry, hb]),
            push _ _ (by decide), entry_ne _ (by decide)]
        · rw [dGet?_append_some (show dGet? (sanEntry g "topP") "topP" = some w from by simp [dGet?_sanEntry, hb])]
      · rw [push _ _ (by decide), push _ _ (by decide)]
        rcases hb : (dGet? g "topK").bind (sanitizeKeyVal "topK") with _ | w
        · rw [dGet?_append_none (by simp [dGet?_sanEntry, hb]),
            entry_ne _ (by decide)]
        · rw [dGet?_append_some (show dGet? (sanEntry g "topK") "topK" = some w from by simp [dGet?_sanEntry, hb])]
      · rw [push _ _ (by decide), push _ _ (by decide), push _ _ (by decide)]
        rw [dGet?_sanEntry]
        simp

theorem sampling_config_sanitization_witness :
    (∃ q : ℚ, JVal.num 2 = JVal.num q ∧ 0 ≤ q ∧ q ≤ 2) ∧
    "temperature" ∈ recognizedKeys ∧
    dGet? (sanitizeGenerationConfig
        (some [("temperature", .num 99), ("junk", .num 3), ("topK", .str "boom")]))
        "topK" =
      (if ([("temperature", JVal.num 99), ("junk", JVal.num 3),
            ("topK", JVal.str "boom")] : List (String × JVal)).isEmpty then none
       else (dGet? [("temperature", JVal.num 99), ("junk", JVal.num 3),
              ("topK", JVal.str "boom")] "topK").bind (sanitizeKeyVal "topK")) := by
  refine ⟨?_, ?_, ?_⟩
  · exact (sampling_config_sanitization_clamps_and_filters.1
      (some [("temperature", .num 99), ("junk", .num 3), ("topK", .str "boom")])
      "temperature" (.num 2)
      (show _ ∈ [("temperature", JVal.num 2)] from List.mem_singleton.mpr rfl)).1 rfl
  · exact sampling_config_sanitization_clamps_and_filters.2.1
      (some [("temperature", .num 99), ("junk", .num 3), ("topK", .str "boom")])
      "temperature" (.num 2)
      (show _ ∈ [("temperature", JVal.num 2)] from List.mem_singleton.mpr rfl)
  · exact sampling_config_sanitization_clamps_and_filters.2.2
      [("temperature", .num 99), ("junk", .num 3), ("topK", .str "boom")]
      "topK" (by decide)

theorem executeAux_sleeps_jittered (transport : ℕ → HOut) (jitter : ℕ → ℚ) :
    ∀ (r attempt a : ℕ) (w : ℚ),
      (a, w) ∈ (executeAux transport jitter r attempt).sleeps →
      w = 2 ^ a * jitter a ∧ attempt ≤ a ∧ a + 1 < attempt + r := by
  intro r
  induction r with
  | zero => intro attempt a w h; simp [executeAux] at h
  | succ r ih =>
    intro attempt a w h
    cases htr : transport attempt with
    | resp status body =>
      simp only [executeAux, htr] at h
      by_cases hc : status ∈ RETRYABLE_STATUS_CODES ∧ 1 ≤ r
      · rw [if_pos hc] at h
        rcases List.mem_cons.mp h with he | ht
        · have ha : a = attempt := congrArg Prod.fst he
          have hw : w = 2 ^ attempt * jitter attempt := congrArg Prod.snd he
          subst ha
          exact ⟨hw, le_refl _, by omega⟩
        · rcases ih (attempt + 1) a w ht with ⟨h1, h2, h3⟩
          exact ⟨h1, by omega, by omega⟩
      · rw [if_neg hc] at h
        by_cases h4 : status < 200 ∨ 300 ≤ status
        · rw [if_pos h4, if_neg hc] at h
          simp at h
        · rw [if_neg h4] at h
          cases body with
          | some j => simp at h
          | none => simp at h
    | netErr msg =>
      simp only [executeAux, htr] at h
      by_cases hr : 1 ≤ r
      · rw [if_pos hr] at h
        rcases List.mem_cons.mp h with he | ht
        · have ha : a = attempt := congrArg Prod.fst he
          have hw : w = 2 ^ attempt * jitter attempt := congrArg Prod.snd he
          subst ha
          exact ⟨hw, le_refl _, by omega⟩
        · rcases ih (attempt + 1) a w ht with ⟨h1, h2, h3⟩
          exact ⟨h1, by omega, by omega⟩
      · rw [if_neg hr] at h
        simp at h

/-- **C5.** Every backoff wait actually executed before a retry by
`_execute_with_retry` — after a retryable HTTP status or after a
network-level error, on any non-final attempt — equals `2^attempt`
multiplied by the drawn jitter factor; with the jitter stream confined to
`[0.5, 1.5]` (as `random.uniform(0.5, 1.5)` guarantees) every executed
sleep lies in `[0.5·2^attempt, 1.5·2^attempt]` seconds, `attempt`
0-indexed and below `maxRetries - 1`.  In particular no reachable retry
path sleeps an unjittered `2^attempt`: the source's unjittered sleep (the
retry inside the `HTTPStatusError` handler) is dead code, since the
equality `w = 2^a · jitter a` holds for every jitter stream whatsoever. -/
theorem retry_backoff_always_jittered (transport : ℕ → HOut) (jitter : ℕ → ℚ)
    (maxRetries : ℕ) (hj : ∀ i, 1/2 ≤ jitter i ∧ jitter i ≤ 3/2) :
    ∀ a : ℕ, ∀ w : ℚ,
      (a, w) ∈ (executeWithRetry transport jitter maxRetries).sleeps →
      w = 2 ^ a * jitter a ∧
      (1/2 : ℚ) * 2 ^ a ≤ w ∧ w ≤ (3/2 : ℚ) * 2 ^ a ∧
      a + 1 < maxRetries := by
  intro a w h
  rcases executeAux_sleeps_jittered transport jitter maxRetries 0 a w h with ⟨h1, -, h3⟩
  have hpow : (0 : ℚ) < 2 ^ a := by positivity
  refine ⟨h1, ?_, ?_, by omega⟩
  · rw [h1, mul_comm ((2:ℚ) ^ a) (jitter a)]
    exact mul_le_mul_of_nonneg_right (hj a).1 (le_of_lt hpow)
  · rw [h1, mul_comm ((2:ℚ) ^ a) (jitter a)]
    exact mul_le_mul_of_nonneg_right (hj a).2 (le_of_lt hpow)

theorem retry_backoff_always_jittered_witness :
    (1 : ℚ) = 2 ^ 0 * 1 ∧
    (1/2 : ℚ) * 2 ^ 0 ≤ 1 ∧ (1 : ℚ) ≤ (3/2 : ℚ) * 2 ^ 0 ∧
    0 + 1 < 3 :=
  retry_backoff_always_jittered (fun _ => .resp 503 (some (.obj [])))
    (fun _ => (1 : ℚ)) 3 (fun _ => by norm_num) 0 1
    (by norm_num [executeWithRetry, executeAux, RETRYABLE_STATUS_CODES])

/-- **C4.** With `maxRetries = 3` the transport engine issues at most
three HTTP attempts: on 503, 503, 200 it makes exactly 3 calls and
returns the parsed JSON body of the 200; on endless 503 it makes exactly
`maxRetries` calls, never a 4th, then raises preserving the HTTP-status
classification; on endless network errors it likewise makes exactly 3
calls and raises preserving the network-error classification. -/
theorem retry_engine_bounded_attempts :
    (∀ (body : JVal) (jitter : ℕ → ℚ) (transport : ℕ → HOut),
      (∀ i, transport i =
        if i < 2 then .resp 503 (some (.obj [])) else .resp 200 (some body)) →
      (executeWithRetry transport jitter 3).result = .ok body ∧
      (executeWithRetry transport jitter 3).calls = 3) ∧
    (∀ (b : ℕ → Option JVal) (jitter : ℕ → ℚ) (transport : ℕ → HOut),
      (∀ i, transport i = .resp 503 (b i)) →
      (executeWithRetry transport jitter 3).result = .error (.httpStatus 503 (b 2)) ∧
      (executeWithRetry transport jitter 3).calls = 3) ∧
    (∀ (m : ℕ → String) (jitter : ℕ → ℚ) (transport : ℕ → HOut),
      (∀ i, transport i = .netErr (m i)) →
      (executeWithRetry transport jitter 3).result = .error (.requestError (m 2)) ∧
      (executeWithRetry transport jitter 3).calls = 3) := by
  refine ⟨?_, ?_, ?_⟩
  · intro body jitter transport h
    have h0 := h 0
    have h1 := h 1
    have h2 := h 2
    norm_num at h0 h1 h2
    constructor <;>
      simp [executeWithRetry, executeAux, h0, h1, h2, RETRYABLE_STATUS_CODES]
  · intro b jitter transport h
    constructor <;>
      simp [executeWithRetry, executeAux, h 0, h 1, h 2, RETRYABLE_STATUS_CODES]
  · intro m jitter transport h
    constructor <;>
      simp [executeWithRetry, executeAux, h 0, h 1, h 2, RETRYABLE_STATUS_CODES]

theorem retry_engine_bounded_attempts_witness :
    ((executeWithRetry
        (fun i => if i < 2 then .resp 503 (some (.obj [])) else .resp 200 (some (.str "ok")))
        (fun _ => 1) 3).result = .ok (.str "ok") ∧
      (executeWithRetry
        (fun i => if i < 2 then .resp 503 (some (.obj [])) else .resp 200 (some (.str "ok")))
        (fun _ => 1) 3).calls = 3) ∧
    ((executeWithRetry (fun _ => .resp 503 none) (fun _ => 1) 3).result =
        .error (.httpStatus 503 none) ∧
      (executeWithRetry (fun _ => .resp 503 none) (fun _ => 1) 3).calls = 3) ∧
    ((executeWithRetry (fun _ => .netErr "boom") (fun _ => 1) 3).result =
        .error (.requestError "boom") ∧
      (executeWithRetry (fun _ => .netErr "boom") (fun _ => 1) 3).calls = 3) :=
  ⟨retry_engine_bounded_attempts.1 (.str "ok") (fun _ => 1) _ (fun _ => rfl),
   retry_engine_bounded_attempts.2.1 (fun _ => none) (fun _ => 1) _ (fun _ => rfl),
   retry_engine_bounded_attempts.2.2 (fun _ => "boom") (fun _ => 1) _ (fun _ => rfl)⟩

/-- **C7.** Routing and attempt-chain construction of the text
orchestrator: a resolved primary equal (case-insensitively) to the
alternate-backend identifier `"xstory"` delegates the whole request to
the RunPod adapter — which takes no fallback — and otherwise the chain is
exactly `[primary]` with the stripped fallback appended if and only if it
is non-empty, differs from the primary, and is not (case-insensitively)
the alternate-backend identifier. -/
theorem xstory_routing_and_attempt_chain :
    (∀ (st : Settings) (transport : String → JVal → ℕ → HOut)
        (jitter : String → ℕ → ℚ) (oracle : RunpodOracle)
        (sys usr : String) (jm : Bool) (tmo : Option ℚ)
        (gc : Option (List (String × JVal))) (fb : Option String)
        (fuel : ℕ) (m : String),
      m ≠ "" → pyLower m = "xstory" →
      geminiGenerateText st transport jitter oracle sys usr jm tmo gc
          (some m) fb fuel =
        runpodGenerateText st oracle sys usr jm tmo gc fuel) ∧
    (∀ p f : String, (buildModels p f).head? = some p) ∧
    (∀ p f : String,
      (buildModels p f = [p, pyStrip f] ↔
        (pyStrip f ≠ "" ∧ pyStrip f ≠ p ∧ pyLower (pyStrip f) ≠ "xstory")) ∧
      (¬ (pyStrip f ≠ "" ∧ pyStrip f ≠ p ∧ pyLower (pyStrip f) ≠ "xstory") →
        buildModels p f = [p])) ∧
    (∀ (st : Settings) (transport : String → JVal → ℕ → HOut)
        (jitter : String → ℕ → ℚ) (oracle : RunpodOracle)
        (sys usr : String) (jm : Bool) (tmo : Option ℚ)
        (gc : Option (List (String × JVal))) (fuel : ℕ) (m f : String),
      m ≠ "" → pyLower m ≠ "xstory" →
      geminiGenerateText st transport jitter oracle sys usr jm tmo gc
          (some m) (some f) fuel =
        textAttemptLoop st transport jitter sys usr jm gc
          (buildModels m (resolveOr (some f) st.gemini_text_fallback_model))
          none []) := by
  refine ⟨?_, ?_, ?_, ?_⟩
  · intro st transport jitter oracle sys usr jm tmo gc fb fuel m hm hx
    simp [geminiGenerateText, resolveOr, hm, hx]
  · intro p f
    unfold buildModels
    by_cases hc : pyStrip f ≠ "" ∧ pyStrip f ≠ p ∧ pyLower (pyStrip f) ≠ "xstory"
    · rw [if_pos hc]; rfl
    · rw [if_neg hc]; rfl
  · intro p f
    unfold buildModels
    by_cases hc : pyStrip f ≠ "" ∧ pyStrip f ≠ p ∧ pyLower (pyStrip f) ≠ "xstory"
    · rw [if_pos hc]
      exact ⟨⟨fun _ => hc, fun _ => rfl⟩, fun h => absurd hc h⟩
    · rw [if_neg hc]
      refine ⟨⟨fun h => ?_, fun h => absurd h hc⟩, fun _ => rfl⟩
      exact absurd (congrArg List.length h) (by simp)
  · intro st transport jitter oracle sys usr jm tmo gc fuel m f hm hx
    simp [geminiGenerateText, resolveOr, hm, hx]

theorem xstory_routing_and_attempt_chain_witness :
    (geminiGenerateText
        ⟨"k", "gemini-2.5-flash", "gemini-2.5-pro", 180, "gemini-2.5-flash-image",
          45, "rk", "ep", 600⟩
        (fun _ _ _ => .resp 200 none) (fun _ _ => 1)
        ⟨.resp 200 none, fun _ => .resp 200 none, fun _ => .resp 200 none,
          fun _ => 0, fun _ => .resp 200 none, fun _ => 0⟩
        "s" "u" false none none (some "XStory") (some "gemini-2.5-pro") 1 =
      runpodGenerateText
        ⟨"k", "gemini-2.5-flash", "gemini-2.5-pro", 180, "gemini-2.5-flash-image",
          45, "rk", "ep", 600⟩
        ⟨.resp 200 none, fun _ => .resp 200 none, fun _ => .resp 200 none,
          fun _ => 0, fun _ => .resp 200 none, fun _ => 0⟩
        "s" "u" false none none 1) ∧
    (buildModels "gemini-2.5-flash" "gemini-2.5-pro").head? =
      some "gemini-2.5-flash" ∧
    (buildModels "gemini-2.5-flash" "gemini-2.5-pro" =
        ["gemini-2.5-flash", pyStrip "gemini-2.5-pro"] ↔
      (pyStrip "gemini-2.5-pro" ≠ "" ∧
        pyStrip "gemini-2.5-pro" ≠ "gemini-2.5-flash" ∧
        pyLower (pyStrip "gemini-2.5-pro") ≠ "xstory")) := by
  refine ⟨?_, ?_, ?_⟩
  · exact xstory_routing_and_attempt_chain.1 _ _ _ _ _ _ _ _ _ _ _ _
      (by decide) (by decide)
  · exact xstory_routing_and_attempt_chain.2.1 _ _
  · exact (xstory_routing_and_attempt_chain.2.2.1 _ _).1

/-- **C9.** The alternate-backend output extraction tries the documented
completed-payload shapes — a list of strings; records with
`choices[0].tokens` joined; `choices[0].text` as a string or a joined
list; OpenAI-style `choices[0].message.content`; dict-shaped
`output.text` as a string or a joined list — and the adapter fails with
the invalid-output-format error when none match; in particular polling a
status endpoint that returns `{"status": "COMPLETED", "output": {"text":
["a", "b"]}}` yields `"ab"`. -/
theorem runpod_output_extraction_shapes :
    (∀ s : String, pyStrip s ≠ "" →
      extractRunpodText (.obj [("output", .arr [.str s])]) = some (pyStrip s)) ∧
    (∀ a b : String,
      extractRunpodText (.obj [("output", .arr [.obj [("choices",
          .arr [.obj [("tokens", .arr [.str a, .str b])]])]])]) =
        some (pyStrip (pyJoin [a, b]))) ∧
    (∀ s : String, pyStrip s ≠ "" →
      extractRunpodText (.obj [("output", .arr [.obj [("choices",
          .arr [.obj [("text", .str s)]])]])]) = some (pyStrip s)) ∧
    (∀ a b : String,
      extractRunpodText (.obj [("output", .arr [.obj [("choices",
          .arr [.obj [("text", .arr [.str a, .str b])]])]])]) =
        some (pyStrip (pyJoin [a, b]))) ∧
    (∀ s : String, pyStrip s ≠ "" →
      extractRunpodText (.obj [("output", .arr [.obj [("choices",
          .arr [.obj [("message", .obj [("content", .str s)])]])]])]) =
        some (pyStrip s)) ∧
    (∀ s : String, pyStrip s ≠ "" →
      extractRunpodText (.obj [("output", .obj [("text", .str s)])]) =
        some (pyStrip s)) ∧
    (∀ a b : String,
      extractRunpodText (.obj [("output", .obj [("text", .arr [.str a, .str b])])]) =
        some (pyStrip (pyJoin [a, b]))) ∧
    (∀ (st : Settings) (oracle : RunpodOracle) (sys usr : String)
        (gc : Option (List (String × JVal))) (fuel : ℕ) (polledBody : JVal),
      st.runpod_api_key ≠ "" → 0 ≤ st.runpod_timeout_s →
      oracle.run 0 = .resp 200 (some (.obj [("id", .str "job1")])) →
      oracle.statusB 0 = .resp 200 (some polledBody) →
      oracle.elapsedB 0 = 0 →
      jStrEq (jGetD polledBody "status") "COMPLETED" = true →
      extractRunpodText polledBody = none →
      (runpodGenerateText st oracle sys usr true none gc (fuel + 1)).1 =
        .error (.valueError "Invalid RunPod /status output")) ∧
    ((runpodGenerateText
        ⟨"k", "gemini-2.5-flash", "gemini-2.5-pro", 180, "gemini-2.5-flash-image",
          45, "rk", "ep", 600⟩
        ⟨.resp 200 none, fun _ => .resp 200 (some (.obj [("id", .str "job1")])),
          fun _ => .resp 200 none, fun _ => 0,
          fun _ => .resp 200 (some (.obj [("status", .str "COMPLETED"),
            ("output", .obj [("text", .arr [.str "a", .str "b"])])])),
          fun _ => 0⟩
        "s" "u" true none none 1).1 = .ok "ab") := by
  refine ⟨?_, ?_, ?_, ?_, ?_, ?_, ?_, ?_, ?_⟩
  · intro s hs
    simp [extractRunpodText, extractFromFirst, dGet?, hs]
  · intro a b
    simp [extractRunpodText, extractFromFirst, extractViaChoices, dGet?, pyStr, pyJoin]
  · intro s hs
    simp [extractRunpodText, extractFromFirst, extractViaChoices, dGet?, hs]
  · intro a b
    simp [extractRunpodText, extractFromFirst, extractViaChoices, dGet?, pyStr, pyJoin]
  · intro s hs
    simp [extractRunpodText, extractFromFirst, extractViaChoices,
      extractViaMessage, dGet?, hs]
  · intro s hs
    simp [extractRunpodText, extractOutDict, dGet?, hs]
  · intro a b
    simp [extractRunpodText, extractOutDict, dGet?, pyStr, pyJoin]
  · intro st oracle sys usr gc fuel polledBody hkey htmo hrun hstat helap hcompl hext
    have hkey2 : ¬ st.runpod_api_key = "" := hkey
    have hnlt : ¬ st.runpod_timeout_s < 0 := not_lt.mpr htmo
    simp [runpodGenerateText, hkey2, runpodRunPath, runSubmit, hrun,
      runpodJobId, dGet?, truthy, pyStr, pollStatus, helap, hstat,
      hcompl, hext, hnlt]
  · rfl

theorem runpod_output_extraction_shapes_witness :
    extractRunpodText (.obj [("output", .arr [.str "hello"])]) =
      some (pyStrip "hello") ∧
    extractRunpodText (.obj [("output", .arr [.obj [("choices",
        .arr [.obj [("tokens", .arr [.str "a", .str "b"])]])]])]) =
      some (pyStrip (pyJoin ["a", "b"])) ∧
    extractRunpodText (.obj [("output", .arr [.obj [("choices",
        .arr [.obj [("text", .str "tx")]])]])]) = some (pyStrip "tx") ∧
    extractRunpodText (.obj [("output", .arr [.obj [("choices",
        .arr [.obj [("text", .arr [.str "a", .str "b"])]])]])]) =
      some (pyStrip (pyJoin ["a", "b"])) ∧
    extractRunpodText (.obj [("output", .arr [.obj [("choices",
        .arr [.obj [("message", .obj [("content", .str "mc")])]])]])]) =
      some (pyStrip "mc") ∧
    extractRunpodText (.obj [("output", .obj [("text", .str "dt")])]) =
      some (pyStrip "dt") ∧
    extractRunpodText (.obj [("output", .obj [("text", .arr [.str "a", .str "b"])])]) =
      some (pyStrip (pyJoin ["a", "b"])) ∧
    (runpodGenerateText
        ⟨"k", "gemini-2.5-flash", "gemini-2.5-pro", 180, "gemini-2.5-flash-image",
          45, "rk", "ep", 600⟩
        ⟨.resp 200 none, fun _ => .resp 200 (some (.obj [("id", .str "job1")])),
          fun _ => .resp 200 none, fun _ => 0,
          fun _ => .resp 200 (some (.obj [("status", .str "COMPLETED")])),
          fun _ => 0⟩
        "s" "u" true none none (0 + 1)).1 =
      .error (.valueError "Invalid RunPod /status output") :=
  ⟨runpod_output_extraction_shapes.1 "hello" (by decide),
   runpod_output_extraction_shapes.2.1 "a" "b",
   runpod_output_extraction_shapes.2.2.1 "tx" (by decide),
   runpod_output_extraction_shapes.2.2.2.1 "a" "b",
   runpod_output_extraction_shapes.2.2.2.2.1 "mc" (by decide),
   runpod_output_extraction_shapes.2.2.2.2.2.1 "dt" (by decide),
   runpod_output_extraction_shapes.2.2.2.2.2.2.1 "a" "b",
   runpod_output_extraction_shapes.2.2.2.2.2.2.2.1
     ⟨"k", "gemini-2.5-flash", "gemini-2.5-pro", 180, "gemini-2.5-flash-image",
       45, "rk", "ep", 600⟩
     ⟨.resp 200 none, fun _ => .resp 200 (some (.obj [("id", .str "job1")])),
       fun _ => .resp 200 none, fun _ => 0,
       fun _ => .resp 200 (some (.obj [("status", .str "COMPLETED")])),
       fun _ => 0⟩
     "s" "u" none 0 (.obj [("status", .str "COMPLETED")])
     (by decide) (by norm_num) rfl rfl rfl (by decide) rfl⟩

/-- **C8.** When every model in the attempt chain fails, the orchestrator
raises the last encountered error, not the first: for a primary and a
distinct valid fallback whose attempts both fail with a `ValueError`
(e.g. empty candidate text), the surfaced error is the one produced by
the fallback attempt. -/
theorem chain_exhaustion_raises_last_error
    (st : Settings) (transport : String → JVal → ℕ → HOut)
    (jitter : String → ℕ → ℚ) (oracle : RunpodOracle)
    (sys usr : String) (jm : Bool) (tmo : Option ℚ)
    (gc : Option (List (String × JVal))) (fuel : ℕ)
    (m1 m2 e1 e2 : String)
    (hm1 : m1 ≠ "") (hx1 : pyLower m1 ≠ "xstory")
    (hstrip : pyStrip m2 = m2) (hm2 : m2 ≠ "") (hne : m2 ≠ m1)
    (hx2 : pyLower m2 ≠ "xstory")
    (h1 : (geminiGenerateTextWithModel st transport jitter m1 sys usr jm gc).1 =
      .error (.valueError e1))
    (h2 : (geminiGenerateTextWithModel st transport jitter m2 sys usr jm gc).1 =
      .error (.valueError e2)) :
    (geminiGenerateText st transport jitter oracle sys usr jm tmo gc
        (some m1) (some m2) fuel).1 = .error (.valueError e2) := by
  rcases hA1 : geminiGenerateTextWithModel st transport jitter m1 sys usr jm gc
    with ⟨r1, l1⟩
  rcases hA2 : geminiGenerateTextWithModel st transport jitter m2 sys usr jm gc
    with ⟨r2, l2⟩
  rw [hA1] at h1
  rw [hA2] at h2
  simp only at h1 h2
  subst h1
  subst h2
  have hmodels : buildModels m1
      (if m2 = "" then st.gemini_text_fallback_model else m2) = [m1, m2] := by
    rw [if_neg hm2]
    simp [buildModels, hstrip, hm2, hne, hx2]
  simp [geminiGenerateText, resolveOr, hm1, hx1, hmodels, textAttemptLoop, hA1, hA2]

theorem chain_exhaustion_raises_last_error_witness :
    (geminiGenerateText
        ⟨"k", "gemini-2.5-flash", "gemini-2.5-pro", 180, "gemini-2.5-flash-image",
          45, "rk", "ep", 600⟩
        (fun _ _ _ => .resp 200 (some (.obj [("candidates", .arr [.obj []])])))
        (fun _ _ => 1)
        ⟨.resp 200 none, fun _ => .resp 200 none, fun _ => .resp 200 none,
          fun _ => 0, fun _ => .resp 200 none, fun _ => 0⟩
        "s" "u" false none none (some "gemini-2.5-flash") (some "gemini-2.5-pro")
        1).1 =
      .error (.valueError "Empty response from Gemini model") :=
  chain_exhaustion_raises_last_error _ _ _ _ _ _ _ _ _ _
    "gemini-2.5-flash" "gemini-2.5-pro"
    "Empty response from Gemini model" "Empty response from Gemini model"
    (by decide) (by decide) (by decide) (by decide) (by decide) (by decide)
    rfl rfl

/-- **C1 (counterexample).** The claim says a non-retryable non-404 HTTP
error (here a 400 from the primary) propagates immediately without
invoking the remaining fallback.  In this concrete run the primary
returns 400, yet the orchestrator invokes the fallback endpoint (both
URLs appear in the transport log, in order) and returns the fallback's
text instead of propagating the 400. -/
theorem nonretryable_error_advances_chain_counterexample :
    geminiGenerateText
      stFix
      transport400then200
      jitterOne
      oracleIdle
      "s" "u" false none none (some "gemini-2.5-flash") (some "gemini-2.5-pro") 1 =
    (.ok "hello", [textGenUrl "gemini-2.5-flash", textGenUrl "gemini-2.5-pro"]) := rfl

/-- **C1 (amended).** A non-retryable HTTP status error (404 or not) on a
non-final chain entry does not propagate immediately: the orchestrator
records it as the last error and advances to the remaining fallback
model, which IS invoked; the fallback's outcome then decides the call —
its success is returned (the recorded 400 is discarded) and its caught
failure is raised as the last error.  Propagation of a non-retryable
error happens only from the final chain entry. -/
theorem nonretryable_error_advances_chain
    (st : Settings) (transport : String → JVal → ℕ → HOut)
    (jitter : String → ℕ → ℚ) (oracle : RunpodOracle)
    (sys usr : String) (jm : Bool) (tmo : Option ℚ)
    (gc : Option (List (String × JVal))) (fuel : ℕ)
    (m1 m2 : String) (status : ℕ) (b : Option JVal)
    (hm1 : m1 ≠ "") (hx1 : pyLower m1 ≠ "xstory")
    (hstrip : pyStrip m2 = m2) (hm2 : m2 ≠ "") (hne : m2 ≠ m1)
    (hx2 : pyLower m2 ≠ "xstory")
    (h1 : (geminiGenerateTextWithModel st transport jitter m1 sys usr jm gc).1 =
      .error (.httpStatus status b)) :
    (∀ s2, (geminiGenerateTextWithModel st transport jitter m2 sys usr jm gc).1 =
        .ok s2 →
      geminiGenerateText st transport jitter oracle sys usr jm tmo gc
          (some m1) (some m2) fuel =
        (.ok s2,
          (geminiGenerateTextWithModel st transport jitter m1 sys usr jm gc).2 ++
          (geminiGenerateTextWithModel st transport jitter m2 sys usr jm gc).2)) ∧
    (∀ msg, (geminiGenerateTextWithModel st transport jitter m2 sys usr jm gc).1 =
        .error (.valueError msg) →
      (geminiGenerateText st transport jitter oracle sys usr jm tmo gc
          (some m1) (some m2) fuel).1 = .error (.valueError msg)) := by
  have hmodels : buildModels m1
      (if m2 = "" then st.gemini_text_fallback_model else m2) = [m1, m2] := by
    rw [if_neg hm2]
    simp [buildModels, hstrip, hm2, hne, hx2]
  rcases hA1 : geminiGenerateTextWithModel st transport jitter m1 sys usr jm gc
    with ⟨r1, l1⟩
  rw [hA1] at h1
  simp only at h1
  subst h1
  constructor
  · intro s2 h2
    rcases hA2 : geminiGenerateTextWithModel st transport jitter m2 sys usr jm gc
      with ⟨r2, l2⟩
    rw [hA2] at h2
    simp only at h2
    subst h2
    simp [geminiGenerateText, resolveOr, hm1, hx1, hmodels, textAttemptLoop,
      hA1, hA2]
  · intro msg h2
    rcases hA2 : geminiGenerateTextWithModel st transport jitter m2 sys usr jm gc
      with ⟨r2, l2⟩
    rw [hA2] at h2
    simp only at h2
    subst h2
    simp [geminiGenerateText, resolveOr, hm1, hx1, hmodels, textAttemptLoop,
      hA1, hA2]

theorem nonretryable_error_advances_chain_witness :
    geminiGenerateText stFix transport400then200 jitterOne oracleIdle
        "s" "u" false none none (some "gemini-2.5-flash") (some "gemini-2.5-pro") 2 =
      (.ok "hello",
        (geminiGenerateTextWithModel stFix transport400then200 jitterOne
          "gemini-2.5-flash" "s" "u" false none).2 ++
        (geminiGenerateTextWithModel stFix transport400then200 jitterOne
          "gemini-2.5-pro" "s" "u" false none).2) :=
  (nonretryable_error_advances_chain stFix transport400then200 jitterOne
    oracleIdle "s" "u" false none none 2 "gemini-2.5-flash" "gemini-2.5-pro"
    400 (some (.obj []))
    (by decide) (by decide) (by decide) (by decide) (by decide) (by decide)
    rfl).1 "hello" rfl

theorem geminiGenerateTextWithModel_unknown_model (st : Settings)
    (transport : String → JVal → ℕ → HOut) (jitter : String → ℕ → ℚ)
    (m sys usr : String) (jm : Bool) (gc : Option (List (String × JVal)))
    (hkey : st.gemini_api_key ≠ "") (hm : ¬ textModelKeys.contains m) :
    geminiGenerateTextWithModel st transport jitter m sys usr jm gc =
      (.error (.valueError (unsupportedTextModelMsg m)), []) := by
  have hm2 : m ∉ textModelKeys := by simpa using hm
  simp [geminiGenerateTextWithModel, hkey, textUrlForModel, hm2]

theorem geminiGenerateTextWithModel_log_allowlisted (st : Settings)
    (transport : String → JVal → ℕ → HOut) (jitter : String → ℕ → ℚ)
    (m sys usr : String) (jm : Bool) (gc : Option (List (String × JVal))) :
    ∀ u ∈ (geminiGenerateTextWithModel st transport jitter m sys usr jm gc).2,
      ∃ mm, textModelKeys.contains mm ∧ u = textGenUrl mm := by
  intro u hu
  unfold geminiGenerateTextWithModel at hu
  by_cases hkey : st.gemini_api_key = ""
  · simp [hkey] at hu
  · simp only [hkey, if_false] at hu
    by_cases hm : m ∈ textModelKeys
    · simp only [textUrlForModel, if_pos (List.elem_eq_true_of_mem hm),
        List.mem_replicate] at hu
      exact ⟨m, List.elem_eq_true_of_mem hm, hu.2⟩
    · simp [textUrlForModel, hm] at hu

theorem textAttemptLoop_log_allowlisted (st : Settings)
    (transport : String → JVal → ℕ → HOut) (jitter : String → ℕ → ℚ)
    (sys usr : String) (jm : Bool) (gc : Option (List (String × JVal))) :
    ∀ (models : List String) (lastErr : Option PyExc) (log : List String),
      (∀ u ∈ log, ∃ mm, textModelKeys.contains mm ∧ u = textGenUrl mm) →
      ∀ u ∈ (textAttemptLoop st transport jitter sys usr jm gc
          models lastErr log).2,
        ∃ mm, textModelKeys.contains mm ∧ u = textGenUrl mm := by
  intro models
  induction models with
  | nil =>
    intro lastErr log hlog u hu
    cases lastErr <;> exact hlog u hu
  | cons m rest ih =>
    intro lastErr log hlog u hu
    have happ : ∀ u ∈ log ++
        (geminiGenerateTextWithModel st transport jitter m sys usr jm gc).2,
        ∃ mm, textModelKeys.contains mm ∧ u = textGenUrl mm := by
      intro v hv
      rcases List.mem_append.mp hv with h | h
      · exact hlog v h
      · exact geminiGenerateTextWithModel_log_allowlisted st transport jitter
          m sys usr jm gc v h
    rcases hA : geminiGenerateTextWithModel st transport jitter m sys usr jm gc
      with ⟨r, l⟩
    rw [hA] at happ
    simp only [textAttemptLoop, hA] at hu
    match r, hu with
    | .ok s, hu => exact happ u hu
    | .error (.httpStatus s b), hu => exact ih _ _ happ u hu
    | .error (.valueError msg), hu => exact ih _ _ happ u hu
    | .error (.requestError msg), hu => exact ih _ _ happ u hu
    | .error (.timeoutError msg), hu => exact happ u hu
    | .error .attributeError, hu => exact happ u hu
    | .error (.exception msg), hu => exact happ u hu
    | .error .fuelExhausted, hu => exact happ u hu

theorem textAttemptLoop_all_unknown (st : Settings)
    (transport : String → JVal → ℕ → HOut) (jitter : String → ℕ → ℚ)
    (sys usr : String) (jm : Bool) (gc : Option (List (String × JVal)))
    (hkey : st.gemini_api_key ≠ "") :
    ∀ (models : List String) (lastErr : Option PyExc) (log : List String),
      models ≠ [] →
      (∀ m ∈ models, ¬ textModelKeys.contains m) →
      ∃ m ∈ models,
        textAttemptLoop st transport jitter sys usr jm gc models lastErr log =
          (.error (.valueError (unsupportedTextModelMsg m)), log) := by
  intro models
  induction models with
  | nil => intro lastErr log hne; exact absurd rfl hne
  | cons m rest ih =>
    intro lastErr log hne hall
    have hm : ¬ textModelKeys.contains m := hall m (List.mem_cons_self m rest)
    have hA := geminiGenerateTextWithModel_unknown_model st transport jitter
      m sys usr jm gc hkey hm
    cases rest with
    | nil =>
      refine ⟨m, List.mem_cons_self m [], ?_⟩
      simp [textAttemptLoop, hA]
    | cons m2 rest2 =>
      rcases ih (some (.valueError (unsupportedTextModelMsg m))) (log ++ [])
          (by simp) (fun x hx => hall x (List.mem_cons_of_mem m hx))
        with ⟨mm, hmm, heq⟩
      refine ⟨mm, List.mem_cons_of_mem m hmm, ?_⟩
      have hstep : textAttemptLoop st transport jitter sys usr jm gc
          (m :: m2 :: rest2) lastErr log =
          textAttemptLoop st transport jitter sys usr jm gc (m2 :: rest2)
            (some (.valueError (unsupportedTextModelMsg m))) (log ++ []) := by
        simp [textAttemptLoop, hA]
      rw [hstep, heq]
      simp

/-- **C2 (counterexample).** The claim says a call whose primary (or
fallback) identifier is outside the text allowlist fails with a
validation error before any network request.  Here the primary `"bogus"`
is not allowlisted, yet the call issues a network request to the valid
fallback's endpoint (the transport log is non-empty) and succeeds with
the fallback's text instead of failing. -/
theorem lazy_allowlist_validation_counterexample :
    geminiGenerateText stFix transportGood jitterOne oracleIdle
      "s" "u" false none none (some "bogus") (some "gemini-2.5-flash") 1 =
    (.ok "hello", [textGenUrl "gemini-2.5-flash"]) := rfl

/-- **C2 (amended).** Allowlist validation is per-attempt, not up-front:
each attempt validates its own model before issuing any network request
for that attempt, so (1) every URL the orchestrator ever hands to the
transport is the text endpoint of an allowlisted model, and (2) when
every model in the chain is unknown (and the primary does not route to
the alternate backend), the call fails with the descriptive validation
error of one of the chain's models and the transport observes zero
invocations.  An unknown identifier does not abort the call up-front: an
unknown primary with a valid fallback still reaches the fallback (see the
counterexample), and an unknown fallback is validated only when the chain
reaches it. -/
theorem lazy_allowlist_validation
    (st : Settings) (transport : String → JVal → ℕ → HOut)
    (jitter : String → ℕ → ℚ) (oracle : RunpodOracle)
    (sys usr : String) (jm : Bool) (tmo : Option ℚ)
    (gc : Option (List (String × JVal))) (fuel : ℕ)
    (m1 : String) (fb : Option String)
    (hm1 : m1 ≠ "") (hx1 : pyLower m1 ≠ "xstory") :
    (∀ u ∈ (geminiGenerateText st transport jitter oracle sys usr jm tmo gc
        (some m1) fb fuel).2,
      ∃ mm, textModelKeys.contains mm ∧ u = textGenUrl mm) ∧
    (st.gemini_api_key ≠ "" →
      (∀ m ∈ buildModels m1 (resolveOr fb st.gemini_text_fallback_model),
        ¬ textModelKeys.contains m) →
      ∃ m ∈ buildModels m1 (resolveOr fb st.gemini_text_fallback_model),
        geminiGenerateText st transport jitter oracle sys usr jm tmo gc
            (some m1) fb fuel =
          (.error (.valueError (unsupportedTextModelMsg m)), [])) := by
  have hroute : geminiGenerateText st transport jitter oracle sys usr jm tmo gc
      (some m1) fb fuel =
      textAttemptLoop st transport jitter sys usr jm gc
        (buildModels m1 (resolveOr fb st.gemini_text_fallback_model)) none [] := by
    simp [geminiGenerateText, resolveOr, hm1, hx1]
  constructor
  · rw [hroute]
    exact textAttemptLoop_log_allowlisted st transport jitter sys usr jm gc
      _ none [] (by simp)
  · intro hkey hall
    rcases textAttemptLoop_all_unknown st transport jitter sys usr jm gc hkey
        (buildModels m1 (resolveOr fb st.gemini_text_fallback_model)) none []
        (by
          unfold buildModels
          by_cases hc : pyStrip (resolveOr fb st.gemini_text_fallback_model) ≠ "" ∧
              pyStrip (resolveOr fb st.gemini_text_fallback_model) ≠ m1 ∧
              pyLower (pyStrip (resolveOr fb st.gemini_text_fallback_model)) ≠ "xstory"
          · simp only [if_pos hc]
            simp
          · simp only [if_neg hc]
            simp) hall
      with ⟨m, hmem, heq⟩
    exact ⟨m, hmem, by rw [hroute, heq]⟩

theorem lazy_allowlist_validation_witness :
    (∃ mm, textModelKeys.contains mm ∧
      textGenUrl "gemini-2.5-flash" = textGenUrl mm) ∧
    (∃ m ∈ buildModels "bogus" (resolveOr (some "nope") stFix.gemini_text_fallback_model),
      geminiGenerateText stFix transportGood jitterOne oracleIdle
          "s" "u" false none none (some "bogus") (some "nope") 1 =
        (.error (.valueError (unsupportedTextModelMsg m)), [])) := by
  constructor
  · exact (lazy_allowlist_validation stFix transportGood jitterOne oracleIdle
      "s" "u" false none none 1 "bogus" (some "gemini-2.5-flash")
      (by decide) (by decide)).1 (textGenUrl "gemini-2.5-flash")
      (show _ ∈ [textGenUrl "gemini-2.5-flash"] from List.mem_singleton.mpr rfl)
  · exact (lazy_allowlist_validation stFix transportGood jitterOne oracleIdle
      "s" "u" false none none 1 "bogus" (some "nope")
      (by decide) (by decide)).2 (by decide) (by decide)

/-- **C3 (counterexample).** The claim says `gemini_generate_image` never
raises, for any model argument — including unknown identifiers.  But the
allowlist check sits before the function's try/except, so an unknown
model raises `ValueError` to the caller instead of returning an absent
image. -/
theorem image_generation_raises_on_unknown_model_counterexample :
    geminiGenerateImage stFix transportGood jitterOne "a cat" (some "bogus") =
      (.error (.valueError (unsupportedImageModelMsg "bogus")), []) := rfl

set_option maxRecDepth 4000 in
/-- **C3 (amended).** For an allowlisted (stripped) model identifier and
a configured API key, `gemini_generate_image` never raises: the whole
guarded section — transport with retries, response parsing for both
provider families, and a successful call yielding no image bytes — is
wrapped in `except Exception: return None`, so every failure there
yields an absent (`none`) result.  Outside that guard, an unknown model
identifier or a missing API key raises `ValueError` before any network
attempt (the spec's §7 configuration errors). -/
theorem image_generation_absent_on_failure
    (st : Settings) (transport : String → JVal → ℕ → HOut)
    (jitter : String → ℕ → ℚ) (prompt : String) (m : String)
    (hm : m ≠ "") (hstrip : pyStrip m = m)
    (hallow : imageModelKeys.contains m) (hkey : st.gemini_api_key ≠ "") :
    (∃ r : Option String,
      geminiGenerateImage st transport jitter prompt (some m) =
        (.ok r, (geminiGenerateImage st transport jitter prompt (some m)).2)) ∧
    ((∀ u p i, ∃ msg, transport u p i = .netErr msg) →
      (geminiGenerateImage st transport jitter prompt (some m)).1 = .ok none) := by
  have hsel : pyStrip (resolveOr (some m) st.imagen_model) = m := by
    simp [resolveOr, hm, hstrip]
  constructor
  · unfold geminiGenerateImage
    rw [hsel, if_neg (by simpa using hallow), if_neg hkey]
    cases hres : (executeWithRetry
        (transport (imagenUrl m)
          (if strContains (pyLower m) "gemini" then
            JVal.obj [("contents", .arr [.obj [("parts",
              .arr [.obj [("text", .str (cleanImagePrompt prompt))]])]]),
              ("generationConfig", .obj [])]
          else
            JVal.obj [("instances", .arr [.obj [("prompt",
              .str (cleanImagePrompt prompt))]]),
              ("parameters", .obj [("sampleCount", .num 1)])]))
        (jitter (imagenUrl m))).result with
    | error e => exact ⟨none, by simp [hres]⟩
    | ok data =>
      exact ⟨if strContains (pyLower m) "gemini" then parseGeminiImage data
        else parseLegacyImage data, by simp [hres]⟩
  · intro hnet
    unfold geminiGenerateImage
    rw [hsel, if_neg (by simpa using hallow), if_neg hkey]
    have hrun : ∀ (u : String) (p : JVal), ∃ msg,
        (executeWithRetry (transport u p) (jitter u)).result =
          .error (.requestError msg) := by
      intro u p
      obtain ⟨m0, h0⟩ := hnet u p 0
      obtain ⟨m1, h1⟩ := hnet u p 1
      obtain ⟨m2, h2⟩ := hnet u p 2
      exact ⟨m2, by simp [executeWithRetry, executeAux, h0, h1, h2]⟩
    obtain ⟨msg, hres⟩ := hrun (imagenUrl m)
      (if strContains (pyLower m) "gemini" then
        JVal.obj [("contents", .arr [.obj [("parts",
          .arr [.obj [("text", .str (cleanImagePrompt prompt))]])]]),
          ("generationConfig", .obj [])]
      else
        JVal.obj [("instances", .arr [.obj [("prompt",
          .str (cleanImagePrompt prompt))]]),
          ("parameters", .obj [("sampleCount", .num 1)])])
    simp [hres]

theorem image_generation_absent_on_failure_witness :
    (∃ r : Option String,
      geminiGenerateImage stFix (fun _ _ _ => .netErr "down") jitterOne
          "a cat" (some "gemini-2.5-flash-image") =
        (.ok r, (geminiGenerateImage stFix (fun _ _ _ => .netErr "down")
          jitterOne "a cat" (some "gemini-2.5-flash-image")).2)) ∧
    ((∀ u p i, ∃ msg, (fun (_ : String) (_ : JVal) (_ : ℕ) => HOut.netErr "down") u p i =
        .netErr msg) →
      (geminiGenerateImage stFix (fun _ _ _ => .netErr "down") jitterOne
        "a cat" (some "gemini-2.5-flash-image")).1 = .ok none) :=
  image_generation_absent_on_failure stFix (fun _ _ _ => .netErr "down")
    jitterOne "a cat" "gemini-2.5-flash-image"
    (by decide) (by decide) (by decide) (by decide)

theorem dropWhile_head_not {p : Char → Bool} :
    ∀ l : List Char, l.dropWhile p ≠ [] → ∃ c ∈ l.dropWhile p, p c = false := by
  intro l
  induction l with
  | nil => intro h; exact absurd rfl h
  | cons a t ih =>
    intro h
    by_cases hp : p a
    · rw [List.dropWhile_cons_of_pos hp] at h ⊢
      exact ih h
    · rw [List.dropWhile_cons_of_neg hp] at h ⊢
      exact ⟨a, List.mem_cons_self a _, by simpa using hp⟩

theorem pyStrip_has_ink {x s : String} (hx : pyStrip x = s) (hs : s ≠ "") :
    ∃ c ∈ s.data, isPySpace c = false := by
  subst hx
  unfold pyStrip pyStripL at hs ⊢
  set d1 := (x.data.dropWhile isPySpace).reverse with hd1
  have hne : d1.dropWhile isPySpace ≠ [] := by
    intro hnil
    apply hs
    show String.mk _ = String.mk []
    rw [hnil]
    rfl
  rcases dropWhile_head_not d1 hne with ⟨c, hc, hcp⟩
  exact ⟨c, by simpa using List.mem_reverse.mpr hc, hcp⟩

theorem extractTextFromParts_strip (parts : JVal) :
    ∃ x, pyStrip x = extractTextFromParts parts := by
  unfold extractTextFromParts
  split
  · exact ⟨_, rfl⟩
  · split
    · exact ⟨_, rfl⟩
    · exact ⟨_, rfl⟩
  · exact ⟨_, rfl⟩

theorem textCascade_strip (parts content candidate : JVal) :
    ∃ x, pyStrip x = textCascade parts content candidate := by
  unfold textCascade
  dsimp only
  split_ifs <;> first
    | exact ⟨_, rfl⟩
    | exact extractTextFromParts_strip parts

theorem processTextResponse_ok {data : JVal} {s : String}
    (h : processTextResponse data = .ok s) :
    (∃ x, pyStrip x = s) ∧ s ≠ "" := by
  unfold processTextResponse at h
  split at h
  · dsimp only at h
    split at h
    · split_ifs at h with hemp
      injection h with hv
      subst hv
      exact ⟨textCascade_strip _ _ _, hemp⟩
    · exact absurd h (by simp)
  · simp at h

theorem geminiGenerateTextWithModel_ok {st : Settings}
    {transport : String → JVal → ℕ → HOut} {jitter : String → ℕ → ℚ}
    {m sys usr : String} {jm : Bool} {gc : Option (List (String × JVal))}
    {s : String}
    (h : (geminiGenerateTextWithModel st transport jitter m sys usr jm gc).1 =
      .ok s) :
    (∃ x, pyStrip x = s) ∧ s ≠ "" := by
  unfold geminiGenerateTextWithModel at h
  by_cases hkey : st.gemini_api_key = ""
  · rw [if_pos hkey] at h
    exact absurd h (by simp)
  · rw [if_neg hkey] at h
    dsimp only at h
    split at h
    · exact absurd h (by simp)
    · dsimp only at h
      split at h
      · exact absurd h (by simp)
      · exact processTextResponse_ok h

theorem extractViaMessage_strip {c0kvs : List (String × JVal)} {s : String}
    (h : extractViaMessage c0kvs = some s) : ∃ x, pyStrip x = s := by
  unfold extractViaMessage at h
  repeat' split at h
  all_goals first
    | exact Option.noConfusion h
    | (injection h with hv; exact ⟨_, hv⟩)

theorem extractViaChoices_strip {c0kvs : List (String × JVal)} {s : String}
    (h : extractViaChoices c0kvs = some s) : ∃ x, pyStrip x = s := by
  unfold extractViaChoices at h
  repeat' split at h
  all_goals first
    | exact Option.noConfusion h
    | (injection h with hv; exact ⟨_, hv⟩)
    | exact extractViaMessage_strip h

theorem extractAltText_strip {fkvs : List (String × JVal)} {s : String}
    (h : extractAltText fkvs = some s) : ∃ x, pyStrip x = s := by
  unfold extractAltText at h
  repeat' split at h
  all_goals first
    | exact Option.noConfusion h
    | (injection h with hv; exact ⟨_, hv⟩)

theorem extractAltKeys_strip {fkvs : List (String × JVal)} {s : String}
    (h : extractAltKeys fkvs = some s) : ∃ x, pyStrip x = s := by
  unfold extractAltKeys at h
  repeat' split at h
  all_goals first
    | exact Option.noConfusion h
    | (injection h with hv; exact ⟨_, hv⟩)
    | exact extractAltText_strip h

theorem extractFromFirst_strip {fv : JVal} {s : String}
    (h : extractFromFirst fv = some s) : ∃ x, pyStrip x = s := by
  unfold extractFromFirst at h
  split at h
  · split_ifs at h
    injection h with hv
    exact ⟨_, hv⟩
  · dsimp only at h
    split at h
    · rename_i s2 heq
      injection h with hv
      subst hv
      split at heq
      · exact extractViaChoices_strip heq
      · exact Option.noConfusion heq
    · exact extractAltKeys_strip h
  · exact Option.noConfusion h

theorem extractOutAlt_strip {okvs : List (String × JVal)} {s : String}
    (h : extractOutAlt okvs = some s) : ∃ x, pyStrip x = s := by
  unfold extractOutAlt at h
  repeat' split at h
  all_goals first
    | exact Option.noConfusion h
    | (injection h with hv; exact ⟨_, hv⟩)

theorem extractOutDict_strip {okvs : List (String × JVal)} {s : String}
    (h : extractOutDict okvs = some s) : ∃ x, pyStrip x = s := by
  unfold extractOutDict at h
  repeat' split at h
  all_goals first
    | exact Option.noConfusion h
    | (injection h with hv; exact ⟨_, hv⟩)
    | exact extractOutAlt_strip h

theorem extractRunpodText_strip {data : JVal} {s : String}
    (h : extractRunpodText data = some s) : ∃ x, pyStrip x = s := by
  unfold extractRunpodText at h
  repeat' split at h
  all_goals first
    | exact Option.noConfusion h
    | (injection h with hv; exact ⟨_, hv⟩)
    | exact extractFromFirst_strip h
    | exact extractOutDict_strip h

theorem prependLog_fst (l : List String) (r : Except PyExc String × List String) :
    (prependLog l r).1 = r.1 := rfl

theorem runpodRunPath_ok {st : Settings} {oracle : RunpodOracle} {tmo : ℚ}
    {fuel : ℕ} {s : String}
    (h : (runpodRunPath st oracle tmo fuel).1 = .ok s) :
    (∃ x, pyStrip x = s) ∧ s ≠ "" := by
  unfold runpodRunPath at h
  repeat' first
    | split_ifs at h
    | split at h
    | dsimp only at h
  all_goals first
    | (injection h with hv; subst hv;
        exact ⟨extractRunpodText_strip (by assumption), by assumption⟩)
    | simp at h

theorem runsyncAfterExtract_ok {st : Settings} {oracle : RunpodOracle}
    {data : JVal} {tmo : ℚ} {fuel : ℕ} {s : String}
    (h : (runsyncAfterExtract st oracle data tmo fuel).1 = .ok s) :
    (∃ x, pyStrip x = s) ∧ s ≠ "" := by
  unfold runsyncAfterExtract at h
  repeat' first
    | split_ifs at h
    | split at h
    | dsimp only at h
  all_goals first
    | (injection h with hv; subst hv;
        exact ⟨extractRunpodText_strip (by assumption), by assumption⟩)
    | exact runpodRunPath_ok ((prependLog_fst _ _).symm.trans h)
    | simp at h

theorem runpodGenerateText_ok {st : Settings} {oracle : RunpodOracle}
    {sys usr : String} {jm : Bool} {tmo : Option ℚ}
    {gc : Option (List (String × JVal))} {fuel : ℕ} {s : String}
    (h : (runpodGenerateText st oracle sys usr jm tmo gc fuel).1 = .ok s) :
    (∃ x, pyStrip x = s) ∧ s ≠ "" := by
  unfold runpodGenerateText at h
  repeat' first
    | split_ifs at h
    | split at h
    | dsimp only at h
  all_goals first
    | (injection h with hv; subst hv;
        exact ⟨extractRunpodText_strip (by assumption), by assumption⟩)
    | exact runpodRunPath_ok h
    | exact runpodRunPath_ok ((prependLog_fst _ _).symm.trans h)
    | exact runsyncAfterExtract_ok h
    | simp at h

theorem textAttemptLoop_ok {st : Settings}
    {transport : String → JVal → ℕ → HOut} {jitter : String → ℕ → ℚ}
    {sys usr : String} {jm : Bool} {gc : Option (List (String × JVal))} :
    ∀ {models : List String} {lastErr : Option PyExc} {log : List String}
      {s : String},
      (textAttemptLoop st transport jitter sys usr jm gc models lastErr log).1 =
        .ok s →
      (∃ x, pyStrip x = s) ∧ s ≠ "" := by
  intro models
  induction models with
  | nil =>
    intro lastErr log s h
    cases lastErr <;> simp [textAttemptLoop] at h
  | cons m rest ih =>
    intro lastErr log s h
    rcases hA : geminiGenerateTextWithModel st transport jitter m sys usr jm gc
      with ⟨r, l⟩
    simp only [textAttemptLoop, hA] at h
    match r, h with
    | .ok s2, h =>
      have : s2 = s := by simpa using h
      subst this
      exact geminiGenerateTextWithModel_ok (by rw [hA])
    | .error (.httpStatus st2 b), h => exact ih h
    | .error (.valueError m2), h => exact ih h
    | .error (.requestError m2), h => exact ih h
    | .error (.timeoutError m2), h => exact absurd h (by simp)
    | .error .attributeError, h => exact absurd h (by simp)
    | .error (.exception m2), h => exact absurd h (by simp)
    | .error .fuelExhausted, h => exact absurd h (by simp)

/-- **C10.** Whenever the text orchestrator returns normally, the
returned string is non-empty and contains at least one non-whitespace
character: both the primary-provider path and the alternate-backend path
strip extracted text and raise instead of returning when extraction
yields an empty result. -/
theorem generated_text_nonempty_and_inked (st : Settings)
    (transport : String → JVal → ℕ → HOut) (jitter : String → ℕ → ℚ)
    (oracle : RunpodOracle) (sys usr : String) (jm : Bool) (tmo : Option ℚ)
    (gc : Option (List (String × JVal))) (tm fbm : Option String) (fuel : ℕ)
    (s : String) (log : List String)
    (h : geminiGenerateText st transport jitter oracle sys usr jm tmo gc
        tm fbm fuel = (.ok s, log)) :
    s ≠ "" ∧ ∃ c ∈ s.data, isPySpace c = false := by
  have h1 : (geminiGenerateText st transport jitter oracle sys usr jm tmo gc
      tm fbm fuel).1 = .ok s := by rw [h]
  unfold geminiGenerateText at h1
  dsimp only at h1
  split_ifs at h1 with hx
  · rcases runpodGenerateText_ok h1 with ⟨⟨x, hxs⟩, hne⟩
    exact ⟨hne, pyStrip_has_ink hxs hne⟩
  · rcases textAttemptLoop_ok h1 with ⟨⟨x, hxs⟩, hne⟩
    exact ⟨hne, pyStrip_has_ink hxs hne⟩

theorem generated_text_nonempty_and_inked_witness :
    "hello" ≠ "" ∧ ∃ c ∈ "hello".data, isPySpace c = false :=
  generated_text_nonempty_and_inked stFix transportGood jitterOne oracleIdle
    "s" "u" false none none (some "gemini-2.5-flash") (some "gemini-2.5-pro") 1
    "hello" [textGenUrl "gemini-2.5-flash"] rfl

end StoryForge
